import Mathlib

/-!
Verification of the gx10-dashboard alert-evaluation and real-time-delivery
pipeline: a shallow embedding of the server-side alert evaluator and
threshold store (`src/server/src/services/alerts.ts`, re-exported through
`nvidia.ts`), the broadcast loop (`src/server/src/websocket.ts`, alerts
variant), the route-layer validation (`POST /api/alerts/thresholds` and
`PUT /api/settings`), the client ingest store
(`src/client/src/store/useStore.ts`) and the durable IndexedDB metrics
buffer (`useMetricsDB`), together with proofs of the pipeline's stated
properties.

Modelling conventions: JavaScript numbers are embedded as `ℚ`; nullable
or optional fields as `Option`; the module-level mutable stores become
explicit state passed to and returned from each operation; the clock
(`new Date().toISOString()` / `Date.now()`) is an explicit `String`
parameter; and the unique alert id generator (`Date.now()` plus a random
suffix, used by the source purely for uniqueness) is modelled as a
counter threaded through the store state.
-/

namespace GX10

/-! ## Character/number rendering helpers

`Number.prototype.toFixed` is embedded digit-by-digit so that the CSV
export claims about separator counts can be settled: the rendering
produces only digit characters, an optional leading minus and a decimal
point. -/

/-- Decimal digits of a positive natural number, least significant first. -/
def natDigitsRev : ℕ → List Char
  | 0 => []
  | n + 1 => Nat.digitChar ((n + 1) % 10) :: natDigitsRev ((n + 1) / 10)
decreasing_by exact Nat.div_lt_self (Nat.succ_pos n) (by norm_num)

/-- Decimal digit characters of a natural number, most significant first. -/
def natDigits (n : ℕ) : List Char :=
  if n = 0 then ['0'] else (natDigitsRev n).reverse

/-- Left-pad a character list with zeros to length `n`. -/
def padZeros (l : List Char) (n : ℕ) : List Char :=
  List.replicate (n - l.length) '0' ++ l

/-- Scale a rational by `10 ^ digits` and round half away from half-down,
mirroring the usual `toFixed` rounding. -/
def qScaled (q : ℚ) (digits : ℕ) : ℤ :=
  ⌊q * (10 : ℚ) ^ digits + 1 / 2⌋

/-- Character-list form of `q.toFixed(digits)`. -/
def toFixedChars (q : ℚ) (digits : ℕ) : List Char :=
  let s := qScaled q digits
  let sign : List Char := if s < 0 then ['-'] else []
  let a := s.natAbs
  if digits = 0 then sign ++ natDigits a
  else
    sign ++ natDigits (a / 10 ^ digits) ++ ['.'] ++
      padZeros (natDigits (a % 10 ^ digits)) digits

/-- Embedding of JavaScript `value.toFixed(digits)`. -/
def toFixed (q : ℚ) (digits : ℕ) : String :=
  String.mk (toFixedChars q digits)

/-- Abstract rendering of a JavaScript number inside a template literal
(used only inside human-readable message strings, which no claim
inspects beyond equality). -/
def jsNum (q : ℚ) : String := toString q

/-! ## Data model (`MetricsData`, thresholds, alert events)

Translated from `src/server/src/services/alerts.ts` (interfaces
`AlertThresholds`, `AlertCheck`, `MetricsData`) and the matching client
types. -/

/-- CPU part of a metrics snapshot. -/
structure CpuMetrics where
  usage : ℚ
  temperature : Option ℚ
  deriving DecidableEq, Repr

/-- Memory part of a metrics snapshot. -/
structure MemoryMetrics where
  used : ℚ
  percentage : ℚ
  deriving DecidableEq, Repr

/-- GPU part of a metrics snapshot (the whole object is nullable). -/
structure GpuMetrics where
  utilization : ℚ
  memory_used : Option ℚ
  temperature : ℚ
  power_draw : ℚ
  deriving DecidableEq, Repr

/-- The wire snapshot `MetricsData`. -/
structure MetricsData where
  timestamp : String
  cpu : CpuMetrics
  memory : MemoryMetrics
  gpu : Option GpuMetrics
  brainActive : String
  ollamaModels : List String
  deriving DecidableEq, Repr

/-- Alert category (`'cpu' | 'gpu_temp' | 'memory' | 'disk'`). -/
inductive AlertType where
  | cpu
  | gpu_temp
  | memory
  | disk
  deriving DecidableEq, Repr, Fintype

/-- Alert severity (`'warning' | 'critical'`). -/
inductive AlertSeverity where
  | warning
  | critical
  deriving DecidableEq, Repr

/-- One `warning`/`critical` threshold pair for a category. -/
structure ThresholdPair where
  warning : ℚ
  critical : ℚ
  deriving DecidableEq, Repr

/-- The four-category threshold configuration `AlertThresholds`. -/
structure AlertThresholds where
  cpu : ThresholdPair
  gpu_temp : ThresholdPair
  memory : ThresholdPair
  disk : ThresholdPair
  deriving DecidableEq, Repr

/-- Category projection of an `AlertThresholds`. -/
def AlertThresholds.forType (t : AlertThresholds) : AlertType → ThresholdPair
  | .cpu => t.cpu
  | .gpu_temp => t.gpu_temp
  | .memory => t.memory
  | .disk => t.disk

/-- Server-side evaluation result `AlertCheck`. -/
structure AlertCheck where
  type : AlertType
  severity : AlertSeverity
  message : String
  value : ℚ
  threshold : ℚ
  deriving DecidableEq, Repr

/-- `DEFAULT_THRESHOLDS` from `alerts.ts` (and, identically, from the
client store and server config). -/
def DEFAULT_THRESHOLDS : AlertThresholds :=
  { cpu := ⟨80, 90⟩
    gpu_temp := ⟨75, 85⟩
    memory := ⟨80, 90⟩
    disk := ⟨85, 95⟩ }

/-! ## Server threshold store (`getThresholds` / `setThresholds` /
`resetThresholds`)

The module-level mutable `currentThresholds` becomes an explicit
argument: each operation takes the current store value and returns the
new one. -/

/-- A partial thresholds update: each category is optional and, when
present, carries a complete `warning`/`critical` pair (the shape
`Partial<AlertThresholds>` the typed `setThresholds` accepts). -/
structure ThresholdsPatch where
  cpu : Option ThresholdPair
  gpu_temp : Option ThresholdPair
  memory : Option ThresholdPair
  disk : Option ThresholdPair
  deriving DecidableEq, Repr

/-- Category projection of a `ThresholdsPatch`. -/
def ThresholdsPatch.forType (p : ThresholdsPatch) : AlertType → Option ThresholdPair
  | .cpu => p.cpu
  | .gpu_temp => p.gpu_temp
  | .memory => p.memory
  | .disk => p.disk

/-- `setThresholds` from `alerts.ts`: each mentioned category replaces the
stored pair (`thresholds.cpu ?? currentThresholds.cpu`, and so on);
unmentioned categories keep their prior value. The function returns the
new store contents, which the source also returns as a copy. -/
def setThresholds (current : AlertThresholds) (thresholds : ThresholdsPatch) :
    AlertThresholds :=
  { cpu := thresholds.cpu.getD current.cpu
    gpu_temp := thresholds.gpu_temp.getD current.gpu_temp
    memory := thresholds.memory.getD current.memory
    disk := thresholds.disk.getD current.disk }

/-- `resetThresholds` from `alerts.ts`. -/
def resetThresholds : AlertThresholds := DEFAULT_THRESHOLDS

/-! ## Server alert evaluator (`checkThreshold` / `checkAlerts`) -/

/-- Replace the first occurrence of character `c` by `repl`, mirroring
JavaScript `String.prototype.replace` with a single-character pattern. -/
def replaceFirstChar (c : Char) (repl : List Char) : List Char → List Char
  | [] => []
  | x :: xs => if x = c then repl ++ xs else x :: replaceFirstChar c repl xs

/-- String version of `replaceFirstChar`. -/
def replaceFirst (s : String) (c : Char) (repl : String) : String :=
  String.mk (replaceFirstChar c repl.toList s.toList)

/-- `checkThreshold` from `alerts.ts`: critical strictly precedes warning;
below warning no event. -/
def checkThreshold (type : AlertType) (value : ℚ) (thresholds : ThresholdPair)
    (messageTemplate : String) : Option AlertCheck :=
  if value ≥ thresholds.critical then
    some { type
           severity := .critical
           message := messageTemplate ++ " (" ++ toFixed value 1 ++
             "%) exceeds critical threshold"
           value
           threshold := thresholds.critical }
  else if value ≥ thresholds.warning then
    some { type
           severity := .warning
           message := messageTemplate ++ " (" ++ toFixed value 1 ++
             "%) exceeds warning threshold"
           value
           threshold := thresholds.warning }
  else
    none

/-- The in-place message fix for GPU-temperature events: the first `%`
in the message becomes a degree unit
(`gpuTempAlert.message.replace('%', '°C')`). -/
def degreeFix (a : AlertCheck) : AlertCheck :=
  { a with message := replaceFirst a.message '%' "°C" }

/-- `checkAlerts` from `alerts.ts`: evaluates cpu, gpu-temperature (only
when a GPU is present; the degree-unit substitution replaces the first
`%` in the message) and memory, in that order. Disk is not evaluated by
this server-side evaluator (noted in the source). -/
def checkAlerts (metrics : MetricsData) (thresholds : AlertThresholds) :
    List AlertCheck :=
  let cpuAlert := checkThreshold .cpu metrics.cpu.usage thresholds.cpu "CPU usage"
  let gpuTempAlert :=
    match metrics.gpu with
    | some gpu =>
      (checkThreshold .gpu_temp gpu.temperature thresholds.gpu_temp
          "GPU temperature").map degreeFix
    | none => none
  let memoryAlert := checkThreshold .memory metrics.memory.percentage
    thresholds.memory "Memory usage"
  cpuAlert.toList ++ gpuTempAlert.toList ++ memoryAlert.toList

/-- The observed value the evaluator selects for a category: `cpu.usage`,
`gpu.temperature` (absent when there is no GPU), `memory.percentage`;
disk has no observed value in the server snapshot. -/
def observedValue (m : MetricsData) : AlertType → Option ℚ
  | .cpu => some m.cpu.usage
  | .gpu_temp => m.gpu.map (·.temperature)
  | .memory => some m.memory.percentage
  | .disk => none

/-! ## Client ingest store (`src/client/src/store/useStore.ts`)

The zustand store becomes an explicit `StoreState`; the actions become
functions `StoreState → ... → StoreState`. `generateAlertId` is
modelled as the counter `nextId` (the source value, built from
`Date.now()` and a random suffix, exists only to be unique), and the
IndexedDB side effects as a record list `db` in the state. -/

/-- Client-persisted `Alert` (an `AlertCheck` plus `id` and `dismissed`). -/
structure Alert where
  id : ℕ
  type : AlertType
  severity : AlertSeverity
  message : String
  value : ℚ
  threshold : ℚ
  timestamp : String
  dismissed : Bool
  deriving DecidableEq, Repr

/-- One entry of the bounded in-memory chart window (`MetricsHistory`). -/
structure MetricsHistory where
  timestamp : String
  cpu : ℚ
  memory : ℚ
  gpu : Option ℚ
  deriving DecidableEq, Repr

/-- One durable IndexedDB record (`MetricsRecord`); the auto-increment
`id` is assigned by the database, so it is optional on the way in. -/
structure MetricsRecord where
  id : Option ℕ
  timestamp : String
  cpu : ℚ
  memory : ℚ
  gpu : Option ℚ
  gpuTemp : Option ℚ
  gpuMemory : Option ℚ
  deriving DecidableEq, Repr

/-- One mounted-disk entry of the status payload (only the usage
percentage is consulted by the alert path). -/
structure DiskInfo where
  percentage : ℚ
  deriving DecidableEq, Repr

/-- The slice of `FullStatus` the alert path reads (`status?.disk`). -/
structure FullStatus where
  disk : List DiskInfo
  deriving DecidableEq, Repr

/-- `MAX_HISTORY` from `useStore.ts`. -/
def MAX_HISTORY : ℕ := 30

/-- `MAX_ALERTS` from `useStore.ts`. -/
def MAX_ALERTS : ℕ := 100

/-- `MAX_RECORDS` from `useStore.ts` (the `useMetricsDB` variant uses
43200 for the same algorithm). -/
def MAX_RECORDS : ℕ := 8640

/-- `MAX_RECORDS` from the `useMetricsDB` hook. -/
def MAX_RECORDS_DB : ℕ := 43200

/-- JavaScript `array.slice(-n)` for positive `n`: the last
`min n l.length` elements. -/
def takeLast (l : List α) (n : ℕ) : List α :=
  l.drop (l.length - n)

/-- JavaScript `Math.max(...list)` over disk percentages; the source
yields `-Infinity` on an empty list, which no finite threshold can be
exceeded by, so the empty case is modelled as `none`. -/
def maxPercentage : List ℚ → Option ℚ
  | [] => none
  | x :: xs => some (xs.foldl max x)

/-- Data of one not-yet-deduplicated alert candidate: the arguments the
source passes to `createAlert` for a category whose threshold check
fired. -/
structure Candidate where
  severity : AlertSeverity
  value : ℚ
  threshold : ℚ
  message : String
  deriving DecidableEq, Repr

/-- CPU branch of `checkThresholdsAndCreateAlerts`. -/
def cpuCandidate (metrics : MetricsData) (thresholds : AlertThresholds) :
    Option Candidate :=
  let cpuUsage := metrics.cpu.usage
  if cpuUsage ≥ thresholds.cpu.critical then
    some ⟨.critical, cpuUsage, thresholds.cpu.critical,
      "CPU usage critical: " ++ toFixed cpuUsage 1 ++ "%"⟩
  else if cpuUsage ≥ thresholds.cpu.warning then
    some ⟨.warning, cpuUsage, thresholds.cpu.warning,
      "CPU usage high: " ++ toFixed cpuUsage 1 ++ "%"⟩
  else none

/-- GPU-temperature branch of `checkThresholdsAndCreateAlerts` (guarded
by `metrics.gpu?.temperature !== undefined`, i.e. by GPU presence). -/
def gpuTempCandidate (metrics : MetricsData) (thresholds : AlertThresholds) :
    Option Candidate :=
  match metrics.gpu with
  | none => none
  | some gpu =>
    let gpuTemp := gpu.temperature
    if gpuTemp ≥ thresholds.gpu_temp.critical then
      some ⟨.critical, gpuTemp, thresholds.gpu_temp.critical,
        "GPU temperature critical: " ++ jsNum gpuTemp ++ "C"⟩
    else if gpuTemp ≥ thresholds.gpu_temp.warning then
      some ⟨.warning, gpuTemp, thresholds.gpu_temp.warning,
        "GPU temperature high: " ++ jsNum gpuTemp ++ "C"⟩
    else none

/-- Memory branch of `checkThresholdsAndCreateAlerts`. -/
def memoryCandidate (metrics : MetricsData) (thresholds : AlertThresholds) :
    Option Candidate :=
  let memoryUsage := metrics.memory.percentage
  if memoryUsage ≥ thresholds.memory.critical then
    some ⟨.critical, memoryUsage, thresholds.memory.critical,
      "Memory usage critical: " ++ toFixed memoryUsage 1 ++ "%"⟩
  else if memoryUsage ≥ thresholds.memory.warning then
    some ⟨.warning, memoryUsage, thresholds.memory.warning,
      "Memory usage high: " ++ toFixed memoryUsage 1 ++ "%"⟩
  else none

/-- Disk branch of `checkThresholdsAndCreateAlerts` (guarded by
`status?.disk`, observing the maximum usage across all disks). -/
def diskCandidate (status : Option FullStatus) (thresholds : AlertThresholds) :
    Option Candidate :=
  match status with
  | none => none
  | some st =>
    match maxPercentage (st.disk.map (·.percentage)) with
    | none => none
    | some maxDiskUsage =>
      if maxDiskUsage ≥ thresholds.disk.critical then
        some ⟨.critical, maxDiskUsage, thresholds.disk.critical,
          "Disk usage critical: " ++ toFixed maxDiskUsage 1 ++ "%"⟩
      else if maxDiskUsage ≥ thresholds.disk.warning then
        some ⟨.warning, maxDiskUsage, thresholds.disk.warning,
          "Disk usage high: " ++ toFixed maxDiskUsage 1 ++ "%"⟩
      else none

/-- Dispatch of the four per-category branches. -/
def candidateFor (c : AlertType) (metrics : MetricsData)
    (status : Option FullStatus) (thresholds : AlertThresholds) :
    Option Candidate :=
  match c with
  | .cpu => cpuCandidate metrics thresholds
  | .gpu_temp => gpuTempCandidate metrics thresholds
  | .memory => memoryCandidate metrics thresholds
  | .disk => diskCandidate status thresholds

/-- The de-duplication test of `createAlert`: is there an existing
non-dismissed alert of this category? -/
def hasActive (alerts : List Alert) (c : AlertType) : Bool :=
  alerts.any (fun a => a.type == c && !a.dismissed)

/-- Alert object `createAlert` builds. -/
def mkAlert (c : AlertType) (cd : Candidate) (now : String) (id : ℕ) : Alert :=
  { id
    type := c
    severity := cd.severity
    message := cd.message
    value := cd.value
    threshold := cd.threshold
    timestamp := now
    dismissed := false }

/-- The `createAlert` helper of `checkThresholdsAndCreateAlerts`: when the
category's check fired and no non-dismissed alert of the category exists
among `existingAlerts`, append a fresh alert to the accumulator and
consume one id. -/
def tryCreate (existingAlerts : List Alert) (now : String) (c : AlertType)
    (cand : Option Candidate) (st : List Alert × ℕ) : List Alert × ℕ :=
  match cand with
  | none => st
  | some cd =>
    if hasActive existingAlerts c then st
    else (st.1 ++ [mkAlert c cd now st.2], st.2 + 1)

/-- `checkThresholdsAndCreateAlerts` from `useStore.ts`: the four
categories are checked in order cpu, gpu-temperature, memory, disk, each
de-duplicated against `existingAlerts` only. Returns the list of newly
created alerts; ids are assigned from `firstId` upwards. -/
def checkThresholdsAndCreateAlerts (metrics : MetricsData)
    (status : Option FullStatus) (thresholds : AlertThresholds)
    (existingAlerts : List Alert) (now : String) (firstId : ℕ) : List Alert :=
  let s0 : List Alert × ℕ := ([], firstId)
  let s1 := tryCreate existingAlerts now .cpu (cpuCandidate metrics thresholds) s0
  let s2 := tryCreate existingAlerts now .gpu_temp
    (gpuTempCandidate metrics thresholds) s1
  let s3 := tryCreate existingAlerts now .memory
    (memoryCandidate metrics thresholds) s2
  let s4 := tryCreate existingAlerts now .disk
    (diskCandidate status thresholds) s3
  s4.1

/-- The client ingest store state (the fields of the zustand store the
pipeline touches, plus the module-level `persistenceInitialized` flag,
the IndexedDB contents `db`, and the id counter). -/
structure StoreState where
  metrics : Option MetricsData
  metricsHistory : List MetricsHistory
  status : Option FullStatus
  alerts : List Alert
  alertThresholds : AlertThresholds
  alertsEnabled : Bool
  persistenceEnabled : Bool
  persistenceInitialized : Bool
  db : List MetricsRecord
  lastUpdate : Option String
  nextId : ℕ
  deriving Repr

/-- History entry derived from a snapshot in `setMetrics`. -/
def toHistory (metrics : MetricsData) : MetricsHistory :=
  { timestamp := metrics.timestamp
    cpu := metrics.cpu.usage
    memory := metrics.memory.percentage
    gpu := metrics.gpu.map (·.utilization) }

/-- Durable record derived from a snapshot in `setMetrics`. -/
def toRecord (metrics : MetricsData) : MetricsRecord :=
  { id := none
    timestamp := metrics.timestamp
    cpu := metrics.cpu.usage
    memory := metrics.memory.percentage
    gpu := metrics.gpu.map (·.utilization)
    gpuTemp := metrics.gpu.map (·.temperature)
    gpuMemory := metrics.gpu.bind (·.memory_used) }

/-- `setMetrics` from `useStore.ts`: appends to the ring window
(`slice(-MAX_HISTORY)`), re-evaluates alerts when enabled (appending the
new ones and capping at `MAX_ALERTS`), and appends a durable record when
persistence is enabled and initialized. `now` is the tick's
`new Date().toISOString()`. -/
def setMetrics (s : StoreState) (metrics : MetricsData) (now : String) :
    StoreState :=
  let newHistory := toHistory metrics
  let history := takeLast (s.metricsHistory ++ [newHistory]) MAX_HISTORY
  let newAlerts :=
    if s.alertsEnabled then
      checkThresholdsAndCreateAlerts metrics s.status s.alertThresholds
        s.alerts now s.nextId
    else []
  let updatedAlerts :=
    if 0 < newAlerts.length then takeLast (s.alerts ++ newAlerts) MAX_ALERTS
    else s.alerts
  let db :=
    if s.persistenceEnabled && s.persistenceInitialized then
      s.db ++ [toRecord metrics]
    else s.db
  { s with
    metrics := some metrics
    metricsHistory := history
    alerts := updatedAlerts
    db := db
    lastUpdate := some now
    nextId := s.nextId + newAlerts.length }

/-- `dismissAlert` from `useStore.ts`: marks the alert with the given id
dismissed, leaving everything else in place. -/
def dismissAlert (s : StoreState) (id : ℕ) : StoreState :=
  { s with
    alerts := s.alerts.map
      (fun a => if a.id = id then { a with dismissed := true } else a) }

/-- `clearAlerts` from `useStore.ts`. -/
def clearAlerts (s : StoreState) : StoreState :=
  { s with alerts := [] }

/-- `addAlert` from `useStore.ts`: suppressed when a non-dismissed alert
of the same category exists, otherwise appended under the cap. -/
def addAlert (s : StoreState) (alert : Alert) : StoreState :=
  if hasActive s.alerts alert.type then s
  else { s with alerts := takeLast (s.alerts ++ [alert]) MAX_ALERTS }

/-- A sequence of ticks: each element is one received snapshot paired
with the client clock reading for that tick. -/
def ticks (s : StoreState) (l : List (MetricsData × String)) : StoreState :=
  l.foldl (fun s p => setMetrics s p.1 p.2) s

/-- The non-dismissed alerts of one category. -/
def activeFor (c : AlertType) (alerts : List Alert) : List Alert :=
  alerts.filter (fun a => a.type == c && !a.dismissed)

/-! ## Streaming channel: wire message and client handler -/

/-- The wire message of the alerts-variant broadcast loop:
`{type: 'metrics', data, alerts}` (the basic variant omits `alerts`;
the client parser never reads it either way). -/
structure WireMessage where
  type : String
  data : MetricsData
  alerts : List AlertCheck
  deriving Repr

/-- `ws.onmessage` from `useWebSocket.ts`: the handler destructures only
`{type, data}` and forwards `data` to `setMetrics` when the type tag is
`'metrics'`. -/
def handleMessage (s : StoreState) (msg : WireMessage) (now : String) :
    StoreState :=
  if msg.type == "metrics" then setMetrics s msg.data now else s

/-- WebSocket ready state for a connected subscriber. -/
inductive ReadyState where
  | open
  | notOpen
  deriving DecidableEq, Repr

/-- One registered subscriber of the broadcast loop. -/
structure WsClient where
  id : ℕ
  readyState : ReadyState
  deriving DecidableEq, Repr

/-- One tick of the alerts-variant broadcast loop (`setupWebSocket` in
the configurable-interval `websocket.ts`): with zero subscribers nothing
happens; otherwise the snapshot is evaluated against the threshold
store's current values and the single resulting message goes to every
subscriber whose connection is open. Returns the (subscriber id,
message) deliveries of the tick. -/
def broadcastTick (clients : List WsClient) (metrics : MetricsData)
    (currentThresholds : AlertThresholds) : List (ℕ × WireMessage) :=
  if clients.length = 0 then []
  else
    let message : WireMessage :=
      { type := "metrics", data := metrics
        alerts := checkAlerts metrics currentThresholds }
    (clients.filter (fun c => c.readyState == .open)).map
      (fun c => (c.id, message))

/-! ## Durable time-series buffer (`enforceMaxRecords`, `exportMetrics`)

The IndexedDB object store is modelled as the list of its records in
timestamp-index order (the order the `by-timestamp` cursor yields). -/

/-- `enforceMaxRecords` (identical algorithm in `useStore.ts` with cap
8640 and in `useMetricsDB` with cap 43200): when the record count
exceeds the cap, delete the `count - cap` oldest records walking the
timestamp index oldest-first. -/
def enforceMaxRecords (maxRecords : ℕ) (db : List MetricsRecord) :
    List MetricsRecord :=
  if maxRecords < db.length then db.drop (db.length - maxRecords) else db

/-- JSON value tree; `JSON.stringify`'s textual layer (indentation,
digit rendering) is elided, which is the "modulo formatting" of the
round-trip property. -/
inductive Json where
  | num : ℚ → Json
  | str : String → Json
  | null : Json
  | arr : List Json → Json
  | obj : List (String × Json) → Json
  deriving Repr

/-- JSON image of a nullable numeric field. -/
def jsonOfOptQ : Option ℚ → Json
  | none => .null
  | some q => .num q

/-- JSON image of one `MetricsRecord` as `JSON.stringify` produces it
(the optional `id` key is omitted when absent, since `stringify` drops
`undefined` properties). -/
def recordToJson (r : MetricsRecord) : Json :=
  .obj ((match r.id with
    | some n => [("id", Json.num (n : ℚ))]
    | none => []) ++
    [("timestamp", .str r.timestamp),
     ("cpu", .num r.cpu),
     ("memory", .num r.memory),
     ("gpu", jsonOfOptQ r.gpu),
     ("gpuTemp", jsonOfOptQ r.gpuTemp),
     ("gpuMemory", jsonOfOptQ r.gpuMemory)])

/-- The `format === 'json'` branch of `exportMetrics`: an array of the
record objects. -/
def exportMetricsJson (results : List MetricsRecord) : Json :=
  .arr (results.map recordToJson)

/-- Object-field lookup for the parser. -/
def jfield (l : List (String × Json)) (k : String) : Option Json :=
  (l.find? (fun p => p.1 == k)).map (·.2)

/-- Parse a JSON number. -/
def parseNum : Json → Option ℚ
  | .num q => some q
  | _ => none

/-- Parse a JSON string. -/
def parseStr : Json → Option String
  | .str s => some s
  | _ => none

/-- Parse a nullable JSON number. -/
def parseNullableNum : Json → Option (Option ℚ)
  | .null => some none
  | .num q => some (some q)
  | _ => none

/-- Parse a JSON number that must be a natural (the auto-increment id). -/
def parseNatNum : Json → Option ℕ
  | .num q => if q = (q.num.toNat : ℚ) then some q.num.toNat else none
  | _ => none

/-- Parse one record object back out of its JSON image. -/
def parseRecord : Json → Option MetricsRecord
  | .obj l => do
    let idv ← match jfield l "id" with
      | none => some (Option.none (α := ℕ))
      | some j => (parseNatNum j).map some
    let ts ← (jfield l "timestamp").bind parseStr
    let cpu ← (jfield l "cpu").bind parseNum
    let mem ← (jfield l "memory").bind parseNum
    let gpu ← (jfield l "gpu").bind parseNullableNum
    let gpuTemp ← (jfield l "gpuTemp").bind parseNullableNum
    let gpuMemory ← (jfield l "gpuMemory").bind parseNullableNum
    some ⟨idv, ts, cpu, mem, gpu, gpuTemp, gpuMemory⟩
  | _ => none

/-- Parse a JSON export back into records. -/
def parseRecords : Json → Option (List MetricsRecord)
  | .arr l => l.mapM parseRecord
  | _ => none

/-- JavaScript `Array.prototype.join`. -/
def joinSep (sep : String) : List String → String
  | [] => ""
  | [x] => x
  | x :: y :: xs => x ++ sep ++ joinSep sep (y :: xs)

/-- The CSV header columns of `exportMetrics`. -/
def CSV_HEADERS : List String :=
  ["timestamp", "cpu", "memory", "gpu", "gpuTemp", "gpuMemory"]

/-- The six per-record CSV fields of `exportMetrics`: fixed decimal
places, absent optional values rendered as the empty string. -/
def csvFields (r : MetricsRecord) : List String :=
  [r.timestamp,
   toFixed r.cpu 2,
   toFixed r.memory 2,
   (match r.gpu with | some g => toFixed g 2 | none => ""),
   (match r.gpuTemp with | some g => toFixed g 1 | none => ""),
   (match r.gpuMemory with | some g => toFixed g 0 | none => "")]

/-- The `csvRows` array of `exportMetrics`: header row first, then one
joined row per record. -/
def csvRows (results : List MetricsRecord) : List String :=
  joinSep "," CSV_HEADERS :: results.map (fun r => joinSep "," (csvFields r))

/-- The CSV branch of `exportMetrics`: all rows joined by newlines. -/
def exportMetricsCsv (results : List MetricsRecord) : String :=
  joinSep "\n" (csvRows results)

/-! ## Route-layer validation

`POST /api/alerts/thresholds` (`routes/alerts.ts`) and
`PUT /api/settings` (`routes/settings.ts`). The untyped request body is
modelled with per-field options: a missing or non-numeric field arrives
as `none` (JavaScript `typeof x !== 'number'` holds exactly for
these). -/

/-- A per-category body entry: each of the two fields individually
optional. -/
structure PairPatch where
  warning : Option ℚ
  critical : Option ℚ
  deriving DecidableEq, Repr

/-- The thresholds part of a request body: each category optional. -/
structure FieldThresholdsPatch where
  cpu : Option PairPatch
  gpu_temp : Option PairPatch
  memory : Option PairPatch
  disk : Option PairPatch
  deriving DecidableEq, Repr

/-- Category projection of a `FieldThresholdsPatch`. -/
def FieldThresholdsPatch.forType (p : FieldThresholdsPatch) :
    AlertType → Option PairPatch
  | .cpu => p.cpu
  | .gpu_temp => p.gpu_temp
  | .memory => p.memory
  | .disk => p.disk

/-- The category name as it appears in rejection messages. -/
def alertTypeName : AlertType → String
  | .cpu => "cpu"
  | .gpu_temp => "gpu_temp"
  | .memory => "memory"
  | .disk => "disk"

/-- A 400 rejection of a thresholds update; the offending category is
carried explicitly (the source interpolates it into `message`). -/
structure ThresholdRejection where
  category : AlertType
  error : String
  message : String
  deriving DecidableEq, Repr

/-- Validation of one provided category in the `POST /thresholds`
handler: both fields must be numeric, in range, and ordered
`warning < critical`, checked in that order. -/
def validateCat (c : AlertType) (pp : PairPatch) : Option ThresholdRejection :=
  match pp.warning, pp.critical with
  | some w, some cr =>
    if w < 0 ∨ 100 < w ∨ cr < 0 ∨ 100 < cr then
      some ⟨c, "Invalid threshold range",
        alertTypeName c ++ " thresholds must be between 0 and 100"⟩
    else if w ≥ cr then
      some ⟨c, "Invalid threshold order",
        alertTypeName c ++ " warning threshold must be less than critical threshold"⟩
    else none
  | _, _ =>
    some ⟨c, "Invalid threshold values",
      alertTypeName c ++ " thresholds must have numeric warning and critical values"⟩

/-- The validation loop of the `POST /thresholds` handler: categories in
order cpu, gpu_temp, memory, disk; the first violation rejects the whole
request. -/
def validatePost (u : FieldThresholdsPatch) : Option ThresholdRejection :=
  (u.cpu.bind (validateCat .cpu)) <|>
  (u.gpu_temp.bind (validateCat .gpu_temp)) <|>
  (u.memory.bind (validateCat .memory)) <|>
  (u.disk.bind (validateCat .disk))

/-- Conversion of a validated body into the `Partial<AlertThresholds>`
handed to `setThresholds` (categories with both fields present). -/
def patchToFull (u : FieldThresholdsPatch) : ThresholdsPatch :=
  let conv : Option PairPatch → Option ThresholdPair := fun o =>
    o.bind (fun pp =>
      match pp.warning, pp.critical with
      | some w, some cr => some ⟨w, cr⟩
      | _, _ => none)
  { cpu := conv u.cpu
    gpu_temp := conv u.gpu_temp
    memory := conv u.memory
    disk := conv u.disk }

/-- The `POST /thresholds` handler: validate, and only on success apply
`setThresholds`. Returns the HTTP-level outcome together with the
resulting stored thresholds (unchanged on rejection). -/
def postThresholds (current : AlertThresholds) (u : FieldThresholdsPatch) :
    Except ThresholdRejection AlertThresholds × AlertThresholds :=
  match validatePost u with
  | some e => (.error e, current)
  | none =>
    let updated := setThresholds current (patchToFull u)
    (.ok updated, updated)

/-- The rejection condition of the `POST /thresholds` validation for one
provided category, as a predicate: a missing (or non-numeric) field, a
field out of `[0,100]`, or `warning ≥ critical`. -/
def pairViolation (pp : PairPatch) : Prop :=
  match pp.warning, pp.critical with
  | some w, some cr => w < 0 ∨ 100 < w ∨ cr < 0 ∨ 100 < cr ∨ cr ≤ w
  | _, _ => True

/-! ### Server config store (`config.ts`) and `PUT /api/settings` -/

/-- The server block of `DashboardConfig`. -/
structure ServerConfig where
  port : ℕ
  updateInterval : ℕ
  deriving DecidableEq, Repr

/-- The alerts block of `DashboardConfig`. -/
structure AlertsConfig where
  enabled : Bool
  thresholds : AlertThresholds
  deriving DecidableEq, Repr

/-- `DashboardConfig` from `config.ts`. -/
structure DashboardConfig where
  server : ServerConfig
  alerts : AlertsConfig
  deriving DecidableEq, Repr

/-- `defaultConfig` from `config.ts`. -/
def defaultConfig : DashboardConfig :=
  { server := ⟨9000, 10000⟩
    alerts := ⟨true, DEFAULT_THRESHOLDS⟩ }

/-- The server block of a settings request body. -/
structure ServerPatch where
  port : Option ℕ
  updateInterval : Option ℕ
  deriving DecidableEq, Repr

/-- The alerts block of a settings request body. -/
structure AlertsPatch where
  enabled : Option Bool
  thresholds : Option FieldThresholdsPatch
  deriving DecidableEq, Repr

/-- A settings request body (`Partial<DashboardConfig>`, field-level). -/
structure ConfigPatch where
  server : Option ServerPatch
  alerts : Option AlertsPatch
  deriving DecidableEq, Repr

/-- Field-level merge of one threshold category
(`{...current, ...patch}`). -/
def mergePair (cur : ThresholdPair) (pp : PairPatch) : ThresholdPair :=
  { warning := pp.warning.getD cur.warning
    critical := pp.critical.getD cur.critical }

/-- `updateConfig` from `config.ts`: every provided field overwrites,
every omitted field is retained; threshold categories merge
field-by-field via object spread. -/
def updateConfig (cur : DashboardConfig) (p : ConfigPatch) : DashboardConfig :=
  let cur1 :=
    match p.server with
    | none => cur
    | some sp =>
      { cur with server :=
        { port := sp.port.getD cur.server.port
          updateInterval := sp.updateInterval.getD cur.server.updateInterval } }
  match p.alerts with
  | none => cur1
  | some ap =>
    let cur2 :=
      match ap.enabled with
      | none => cur1
      | some e => { cur1 with alerts := { cur1.alerts with enabled := e } }
    match ap.thresholds with
    | none => cur2
    | some tp =>
      { cur2 with alerts := { cur2.alerts with thresholds :=
        { cpu :=
            match tp.cpu with
            | none => cur2.alerts.thresholds.cpu
            | some pp => mergePair cur2.alerts.thresholds.cpu pp
          gpu_temp :=
            match tp.gpu_temp with
            | none => cur2.alerts.thresholds.gpu_temp
            | some pp => mergePair cur2.alerts.thresholds.gpu_temp pp
          memory :=
            match tp.memory with
            | none => cur2.alerts.thresholds.memory
            | some pp => mergePair cur2.alerts.thresholds.memory pp
          disk :=
            match tp.disk with
            | none => cur2.alerts.thresholds.disk
            | some pp => mergePair cur2.alerts.thresholds.disk pp } } }

/-- A 400 rejection of a settings update (`{error, message}`). -/
structure PutRejection where
  error : String
  message : String
  deriving DecidableEq, Repr

/-- Per-category validation of the `PUT /settings` handler: each present
field is range-checked individually; the order `warning < critical` is
checked only when both fields are provided in the update. -/
def validatePutCat (c : AlertType) (pp : PairPatch) : Option PutRejection :=
  let warnErr :=
    match pp.warning with
    | some w =>
      if w < 0 ∨ 100 < w then
        some ⟨"Invalid threshold value",
          alertTypeName c ++ " warning threshold must be a number between 0 and 100"⟩
      else none
    | none => none
  let critErr :=
    match pp.critical with
    | some cr =>
      if cr < 0 ∨ 100 < cr then
        some ⟨"Invalid threshold value",
          alertTypeName c ++ " critical threshold must be a number between 0 and 100"⟩
      else none
    | none => none
  let orderErr :=
    match pp.warning, pp.critical with
    | some w, some cr =>
      if w ≥ cr then
        some ⟨"Invalid threshold order",
          alertTypeName c ++ " warning threshold must be less than critical threshold"⟩
      else none
    | _, _ => none
  warnErr <|> critErr <|> orderErr

/-- The validation of the `PUT /settings` handler: server block first
(port range, minimum update interval), then the four threshold
categories in order. -/
def validatePut (p : ConfigPatch) : Option PutRejection :=
  let serverErr :=
    match p.server with
    | none => none
    | some sp =>
      (match sp.port with
        | some port =>
          if port < 1 ∨ 65535 < port then
            some (⟨"Invalid port value",
              "Port must be a number between 1 and 65535"⟩ : PutRejection)
          else none
        | none => none) <|>
      (match sp.updateInterval with
        | some i =>
          if i < 500 then
            some (⟨"Invalid update interval",
              "Update interval must be at least 500ms"⟩ : PutRejection)
          else none
        | none => none)
  let threshErr :=
    match p.alerts.bind (·.thresholds) with
    | none => none
    | some tp =>
      (tp.cpu.bind (validatePutCat .cpu)) <|>
      (tp.gpu_temp.bind (validatePutCat .gpu_temp)) <|>
      (tp.memory.bind (validatePutCat .memory)) <|>
      (tp.disk.bind (validatePutCat .disk))
  serverErr <|> threshErr

/-- The `PUT /settings` handler: validate, and only on success apply
`updateConfig`. Returns the HTTP-level outcome together with the
resulting stored config (unchanged on rejection). -/
def putSettings (cur : DashboardConfig) (p : ConfigPatch) :
    Except PutRejection DashboardConfig × DashboardConfig :=
  match validatePut p with
  | some e => (.error e, cur)
  | none =>
    let updated := updateConfig cur p
    (.ok updated, updated)

/-! ## Concrete fixtures used by the witness theorems -/

/-- A snapshot with a given CPU usage, no GPU and idle memory. -/
def cpuSnapshot (usage : ℚ) : MetricsData :=
  { timestamp := "2026-02-03T00:00:00.000Z"
    cpu := ⟨usage, none⟩
    memory := ⟨1024, 10⟩
    gpu := none
    brainActive := "code"
    ollamaModels := [] }

/-- A snapshot with a GPU running at the given temperature. -/
def gpuSnapshot (temp : ℚ) : MetricsData :=
  { cpuSnapshot 10 with gpu := some ⟨50, some 2048, temp, 30⟩ }

/-- A fresh client store with default thresholds, alerts enabled and
persistence not yet initialized. -/
def freshStore : StoreState :=
  { metrics := none
    metricsHistory := []
    status := none
    alerts := []
    alertThresholds := DEFAULT_THRESHOLDS
    alertsEnabled := true
    persistenceEnabled := true
    persistenceInitialized := false
    db := []
    lastUpdate := none
    nextId := 0 }

/-- A persisted record with every optional field present. -/
def sampleRecordFull : MetricsRecord :=
  ⟨some 3, "2026-02-03T00:00:00.000Z", 50, 60, some 10, some 70, some 5⟩

/-- A persisted record with every optional field absent. -/
def sampleRecordSparse : MetricsRecord :=
  ⟨none, "2026-02-03T00:00:10.000Z", 1/2, 2/3, none, none, none⟩

/-- Two consecutive ticks whose snapshots breach only the cpu category
against the default thresholds. -/
def breachRun : List (MetricsData × String) :=
  [(cpuSnapshot 95, "n1"), (cpuSnapshot 96, "n2")]

/-- The settings body `{alerts: {thresholds: {cpu: {warning: 95}}}}`:
only the warning field of one category. -/
def warningOnlyBody : ConfigPatch :=
  { server := none
    alerts := some ⟨none, some ⟨some ⟨some 95, none⟩, none, none, none⟩⟩ }

/-! ## Lemmas about the server evaluator -/

theorem checkThreshold_of_crit {t : AlertType} {v : ℚ} {p : ThresholdPair}
    {msg : String} (h : v ≥ p.critical) :
    checkThreshold t v p msg =
      some { type := t, severity := .critical,
             message := msg ++ " (" ++ toFixed v 1 ++ "%) exceeds critical threshold",
             value := v, threshold := p.critical } := by
  unfold checkThreshold
  rw [if_pos h]

theorem checkThreshold_of_warn {t : AlertType} {v : ℚ} {p : ThresholdPair}
    {msg : String} (h1 : v ≥ p.warning) (h2 : v < p.critical) :
    checkThreshold t v p msg =
      some { type := t, severity := .warning,
             message := msg ++ " (" ++ toFixed v 1 ++ "%) exceeds warning threshold",
             value := v, threshold := p.warning } := by
  unfold checkThreshold
  rw [if_neg (by exact not_le.mpr h2), if_pos h1]

theorem checkThreshold_of_below {t : AlertType} {v : ℚ} {p : ThresholdPair}
    {msg : String} (h1 : v < p.warning) (h2 : v < p.critical) :
    checkThreshold t v p msg = none := by
  unfold checkThreshold
  rw [if_neg (by exact not_le.mpr h2), if_neg (by exact not_le.mpr h1)]

theorem checkThreshold_type {t : AlertType} {v : ℚ} {p : ThresholdPair}
    {msg : String} {a : AlertCheck} (h : checkThreshold t v p msg = some a) :
    a.type = t := by
  unfold checkThreshold at h
  split_ifs at h <;> (cases h; rfl)

theorem degreeFix_type (a : AlertCheck) : (degreeFix a).type = a.type := rfl

theorem degreeFix_severity (a : AlertCheck) :
    (degreeFix a).severity = a.severity := rfl

theorem degreeFix_threshold (a : AlertCheck) :
    (degreeFix a).threshold = a.threshold := rfl

theorem degreeFix_value (a : AlertCheck) : (degreeFix a).value = a.value := rfl

/-- Every event of `checkAlerts` has the category of the segment that
produced it; the output splits into the three per-category segments. -/
theorem checkAlerts_eq_segments (m : MetricsData) (th : AlertThresholds) :
    checkAlerts m th =
      (checkThreshold .cpu m.cpu.usage th.cpu "CPU usage").toList ++
      (match m.gpu with
        | some gpu =>
          ((checkThreshold .gpu_temp gpu.temperature th.gpu_temp
            "GPU temperature").map degreeFix).toList
        | none => []) ++
      (checkThreshold .memory m.memory.percentage th.memory "Memory usage").toList := by
  unfold checkAlerts
  rcases m.gpu with _ | g <;> rfl

theorem mem_toList_type {o : Option AlertCheck} {t : AlertType} {a : AlertCheck}
    (h : ∀ b, o = some b → b.type = t) (ha : a ∈ o.toList) : a.type = t := by
  rcases o with _ | b
  · simp at ha
  · simp at ha
    subst ha
    exact h a rfl

/-- Filtering `checkAlerts` by a category keeps exactly that category's
segment. -/
theorem checkAlerts_filter (m : MetricsData) (th : AlertThresholds)
    (c : AlertType) :
    (checkAlerts m th).filter (fun a => a.type == c) =
      (match c with
        | .cpu => (checkThreshold .cpu m.cpu.usage th.cpu "CPU usage").toList
        | .gpu_temp =>
          (match m.gpu with
            | some gpu =>
              ((checkThreshold .gpu_temp gpu.temperature th.gpu_temp
                "GPU temperature").map degreeFix).toList
            | none => [])
        | .memory =>
          (checkThreshold .memory m.memory.percentage th.memory "Memory usage").toList
        | .disk => []) := by
  have hcpu : ∀ a ∈ (checkThreshold .cpu m.cpu.usage th.cpu "CPU usage").toList,
      a.type = AlertType.cpu :=
    fun a ha => mem_toList_type (fun b hb => checkThreshold_type hb) ha
  have hmem : ∀ a ∈ (checkThreshold .memory m.memory.percentage th.memory
      "Memory usage").toList, a.type = AlertType.memory :=
    fun a ha => mem_toList_type (fun b hb => checkThreshold_type hb) ha
  have hgpu : ∀ a ∈ (match m.gpu with
      | some gpu =>
        ((checkThreshold .gpu_temp gpu.temperature th.gpu_temp
          "GPU temperature").map degreeFix).toList
      | none => ([] : List AlertCheck)), a.type = AlertType.gpu_temp := by
    rcases m.gpu with _ | g
    · intro a ha; simp at ha
    · intro a ha
      rcases hgt : checkThreshold .gpu_temp g.temperature th.gpu_temp
        "GPU temperature" with _ | b
      · simp [hgt] at ha
      · simp [hgt] at ha
        subst ha
        rw [degreeFix_type]
        exact checkThreshold_type hgt
  rw [checkAlerts_eq_segments]
  simp only [List.filter_append]
  have keep : ∀ (l : List AlertCheck) (t : AlertType), (∀ a ∈ l, a.type = t) →
      l.filter (fun a => a.type == t) = l := by
    intro l t h
    apply List.filter_eq_self.mpr
    intro a ha
    simp [h a ha]
  have drop : ∀ (l : List AlertCheck) (t t' : AlertType), t ≠ t' →
      (∀ a ∈ l, a.type = t) → l.filter (fun a => a.type == t') = [] := by
    intro l t t' hne h
    apply List.filter_eq_nil_iff.mpr
    intro a ha
    simp [h a ha, hne]
  cases c
  · rw [keep _ _ hcpu, drop _ _ _ (by decide) hgpu, drop _ _ _ (by decide) hmem]
    simp
  · rw [drop _ _ _ (by decide) hcpu, keep _ _ hgpu, drop _ _ _ (by decide) hmem]
    simp
  · rw [drop _ _ _ (by decide) hcpu, drop _ _ _ (by decide) hgpu, keep _ _ hmem]
    simp
  · rw [drop _ _ _ (by decide) hcpu, drop _ _ _ (by decide) hgpu,
      drop _ _ _ (by decide) hmem]
    simp

/-- C1: for every snapshot, thresholds satisfying the data-model
invariant `warning < critical`, and category with an observed value `v`:
`v ≥ critical` yields exactly one event for that category, of severity
critical with `breachedThreshold = critical` (never an additional
warning event in the same call); `warning ≤ v < critical` yields exactly
one warning event with `breachedThreshold = warning`; `v < warning`
yields zero events for that category. -/
theorem c1_evaluator_tiebreak (m : MetricsData) (th : AlertThresholds)
    (c : AlertType) (v : ℚ)
    (hobs : observedValue m c = some v)
    (hinv : (th.forType c).warning < (th.forType c).critical) :
    ((th.forType c).critical ≤ v →
      ((checkAlerts m th).filter (fun a => a.type == c)).length = 1 ∧
      ∀ a ∈ (checkAlerts m th).filter (fun a => a.type == c),
        a.severity = .critical ∧ a.threshold = (th.forType c).critical ∧
          a.value = v) ∧
    ((th.forType c).warning ≤ v ∧ v < (th.forType c).critical →
      ((checkAlerts m th).filter (fun a => a.type == c)).length = 1 ∧
      ∀ a ∈ (checkAlerts m th).filter (fun a => a.type == c),
        a.severity = .warning ∧ a.threshold = (th.forType c).warning ∧
          a.value = v) ∧
    (v < (th.forType c).warning →
      (checkAlerts m th).filter (fun a => a.type == c) = []) := by
  rw [checkAlerts_filter]
  cases c
  case cpu =>
    simp only [observedValue, Option.some.injEq] at hobs
    subst hobs
    simp only [AlertThresholds.forType] at hinv ⊢
    refine ⟨fun h => ?_, fun h => ?_, fun h => ?_⟩
    · rw [checkThreshold_of_crit h]
      refine ⟨rfl, ?_⟩
      intro a ha
      simp only [Option.toList_some, List.mem_singleton] at ha
      subst ha
      exact ⟨rfl, rfl, rfl⟩
    · rw [checkThreshold_of_warn h.1 h.2]
      refine ⟨rfl, ?_⟩
      intro a ha
      simp only [Option.toList_some, List.mem_singleton] at ha
      subst ha
      exact ⟨rfl, rfl, rfl⟩
    · rw [checkThreshold_of_below h (h.trans hinv)]
      rfl
  case gpu_temp =>
    simp only [observedValue] at hobs
    rcases hg : m.gpu with _ | g
    · rw [hg] at hobs
      simp at hobs
    · rw [hg] at hobs
      simp only [Option.map_some', Option.some.injEq] at hobs
      subst hobs
      simp only [hg, AlertThresholds.forType] at hinv ⊢
      refine ⟨fun h => ?_, fun h => ?_, fun h => ?_⟩
      · rw [checkThreshold_of_crit h]
        refine ⟨rfl, ?_⟩
        intro a ha
        simp only [Option.map_some', Option.toList_some, List.mem_singleton] at ha
        subst ha
        exact ⟨rfl, rfl, rfl⟩
      · rw [checkThreshold_of_warn h.1 h.2]
        refine ⟨rfl, ?_⟩
        intro a ha
        simp only [Option.map_some', Option.toList_some, List.mem_singleton] at ha
        subst ha
        exact ⟨rfl, rfl, rfl⟩
      · rw [checkThreshold_of_below h (h.trans hinv)]
        rfl
  case memory =>
    simp only [observedValue, Option.some.injEq] at hobs
    subst hobs
    simp only [AlertThresholds.forType] at hinv ⊢
    refine ⟨fun h => ?_, fun h => ?_, fun h => ?_⟩
    · rw [checkThreshold_of_crit h]
      refine ⟨rfl, ?_⟩
      intro a ha
      simp only [Option.toList_some, List.mem_singleton] at ha
      subst ha
      exact ⟨rfl, rfl, rfl⟩
    · rw [checkThreshold_of_warn h.1 h.2]
      refine ⟨rfl, ?_⟩
      intro a ha
      simp only [Option.toList_some, List.mem_singleton] at ha
      subst ha
      exact ⟨rfl, rfl, rfl⟩
    · rw [checkThreshold_of_below h (h.trans hinv)]
      rfl
  case disk =>
    simp [observedValue] at hobs

/-- Witness for C1 at a concrete input: CPU usage 95 against the default
thresholds (warning 80, critical 90). -/
theorem c1_evaluator_tiebreak_witness :
    observedValue (cpuSnapshot 95) .cpu = some 95 ∧
    (DEFAULT_THRESHOLDS.forType .cpu).warning <
      (DEFAULT_THRESHOLDS.forType .cpu).critical ∧
    (((DEFAULT_THRESHOLDS.forType .cpu).critical ≤ 95 →
      ((checkAlerts (cpuSnapshot 95) DEFAULT_THRESHOLDS).filter
        (fun a => a.type == .cpu)).length = 1 ∧
      ∀ a ∈ (checkAlerts (cpuSnapshot 95) DEFAULT_THRESHOLDS).filter
        (fun a => a.type == .cpu),
        a.severity = .critical ∧
          a.threshold = (DEFAULT_THRESHOLDS.forType .cpu).critical ∧
          a.value = 95) ∧
    ((DEFAULT_THRESHOLDS.forType .cpu).warning ≤ 95 ∧
        95 < (DEFAULT_THRESHOLDS.forType .cpu).critical →
      ((checkAlerts (cpuSnapshot 95) DEFAULT_THRESHOLDS).filter
        (fun a => a.type == .cpu)).length = 1 ∧
      ∀ a ∈ (checkAlerts (cpuSnapshot 95) DEFAULT_THRESHOLDS).filter
        (fun a => a.type == .cpu),
        a.severity = .warning ∧
          a.threshold = (DEFAULT_THRESHOLDS.forType .cpu).warning ∧
          a.value = 95) ∧
    (95 < (DEFAULT_THRESHOLDS.forType .cpu).warning →
      (checkAlerts (cpuSnapshot 95) DEFAULT_THRESHOLDS).filter
        (fun a => a.type == .cpu) = [])) :=
  ⟨rfl, by norm_num [DEFAULT_THRESHOLDS, AlertThresholds.forType],
    c1_evaluator_tiebreak (cpuSnapshot 95) DEFAULT_THRESHOLDS .cpu 95 rfl
      (by norm_num [DEFAULT_THRESHOLDS, AlertThresholds.forType])⟩

/-! ## Lemmas about the client alert-creation path -/

theorem mkAlert_type (c : AlertType) (cd : Candidate) (now : String) (id : ℕ) :
    (mkAlert c cd now id).type = c := rfl

theorem mkAlert_dismissed (c : AlertType) (cd : Candidate) (now : String)
    (id : ℕ) : (mkAlert c cd now id).dismissed = false := rfl

theorem mkAlert_id (c : AlertType) (cd : Candidate) (now : String) (id : ℕ) :
    (mkAlert c cd now id).id = id := rfl

/-- Full behaviour of one `createAlert` step. -/
theorem tryCreate_spec (ex : List Alert) (now : String) (c : AlertType)
    (cand : Option Candidate) (acc : List Alert) (n : ℕ) :
    ∃ d : List Alert,
      tryCreate ex now c cand (acc, n) = (acc ++ d, n + d.length) ∧
      (∀ a ∈ d, a.type = c ∧ a.dismissed = false ∧ a.id = n) ∧
      d.length ≤ 1 ∧
      (hasActive ex c = true → d = []) ∧
      (cand = none → d = []) ∧
      (∀ cd, cand = some cd → hasActive ex c = false →
        d = [mkAlert c cd now n]) := by
  rcases cand with _ | cd
  · refine ⟨[], ?_, ?_, ?_, ?_, ?_, ?_⟩
    · simp [tryCreate]
    · simp
    · simp
    · intro _; rfl
    · intro _; rfl
    · intro cd h; cases h
  · by_cases hac : hasActive ex c
    · refine ⟨[], ?_, ?_, ?_, ?_, ?_, ?_⟩
      · simp [tryCreate, hac]
      · simp
      · simp
      · intro _; rfl
      · intro h; cases h
      · intro cd' h hf
        rw [hac] at hf
        cases hf
    · refine ⟨[mkAlert c cd now n], ?_, ?_, ?_, ?_, ?_, ?_⟩
      · simp [tryCreate, hac]
      · intro a ha
        simp at ha
        subst ha
        exact ⟨rfl, rfl, rfl⟩
      · simp
      · intro h; exact absurd h hac
      · intro h; cases h
      · intro cd' h _
        cases h
        rfl

/-- Decomposition of `checkThresholdsAndCreateAlerts` into its four
per-category contributions. -/
theorem cTCA_decomp (m : MetricsData) (status : Option FullStatus)
    (th : AlertThresholds) (ex : List Alert) (now : String) (fid : ℕ) :
    ∃ d1 d2 d3 d4 : List Alert,
      checkThresholdsAndCreateAlerts m status th ex now fid =
        d1 ++ d2 ++ d3 ++ d4 ∧
      (∀ a ∈ d1, a.type = .cpu ∧ a.dismissed = false) ∧
      (∀ a ∈ d2, a.type = .gpu_temp ∧ a.dismissed = false) ∧
      (∀ a ∈ d3, a.type = .memory ∧ a.dismissed = false) ∧
      (∀ a ∈ d4, a.type = .disk ∧ a.dismissed = false) ∧
      d1.length ≤ 1 ∧ d2.length ≤ 1 ∧ d3.length ≤ 1 ∧ d4.length ≤ 1 ∧
      (hasActive ex .cpu = true → d1 = []) ∧
      (hasActive ex .gpu_temp = true → d2 = []) ∧
      (hasActive ex .memory = true → d3 = []) ∧
      (hasActive ex .disk = true → d4 = []) ∧
      (cpuCandidate m th = none → d1 = []) ∧
      (gpuTempCandidate m th = none → d2 = []) ∧
      (memoryCandidate m th = none → d3 = []) ∧
      (diskCandidate status th = none → d4 = []) := by
  obtain ⟨e1, h1, t1, l1, s1, n1, -⟩ :=
    tryCreate_spec ex now .cpu (cpuCandidate m th) [] fid
  obtain ⟨e2, h2, t2, l2, s2, n2, -⟩ :=
    tryCreate_spec ex now .gpu_temp (gpuTempCandidate m th) ([] ++ e1)
      (fid + e1.length)
  obtain ⟨e3, h3, t3, l3, s3, n3, -⟩ :=
    tryCreate_spec ex now .memory (memoryCandidate m th) ([] ++ e1 ++ e2)
      (fid + e1.length + e2.length)
  obtain ⟨e4, h4, t4, l4, s4, n4, -⟩ :=
    tryCreate_spec ex now .disk (diskCandidate status th) ([] ++ e1 ++ e2 ++ e3)
      (fid + e1.length + e2.length + e3.length)
  refine ⟨e1, e2, e3, e4, ?_,
    fun a ha => ⟨(t1 a ha).1, (t1 a ha).2.1⟩,
    fun a ha => ⟨(t2 a ha).1, (t2 a ha).2.1⟩,
    fun a ha => ⟨(t3 a ha).1, (t3 a ha).2.1⟩,
    fun a ha => ⟨(t4 a ha).1, (t4 a ha).2.1⟩,
    l1, l2, l3, l4, s1, s2, s3, s4, n1, n2, n3, n4⟩
  show (tryCreate ex now .disk (diskCandidate status th)
    (tryCreate ex now .memory (memoryCandidate m th)
      (tryCreate ex now .gpu_temp (gpuTempCandidate m th)
        (tryCreate ex now .cpu (cpuCandidate m th) ([], fid))))).1 =
    e1 ++ e2 ++ e3 ++ e4
  rw [h1, h2, h3, h4]
  simp

theorem hasActive_false_iff (l : List Alert) (c : AlertType) :
    hasActive l c = false ↔ activeFor c l = [] := by
  simp [hasActive, activeFor, List.filter_eq_nil_iff, List.any_eq_true]

theorem activeFor_append (c : AlertType) (l1 l2 : List Alert) :
    activeFor c (l1 ++ l2) = activeFor c l1 ++ activeFor c l2 :=
  List.filter_append _ _

theorem activeFor_of_types_ne {d : List Alert} {t c : AlertType}
    (h : ∀ a ∈ d, a.type = t) (hne : t ≠ c) : activeFor c d = [] := by
  apply List.filter_eq_nil_iff.mpr
  intro a ha
  simp [h a ha, hne]

theorem activeFor_length_le (c : AlertType) (d : List Alert) :
    (activeFor c d).length ≤ d.length :=
  List.length_filter_le _ _

/-- The alerts created per tick never contain more than one alert of a
category, and none at all for a category that already has a
non-dismissed alert. -/
theorem cTCA_activeFor (m : MetricsData) (status : Option FullStatus)
    (th : AlertThresholds) (ex : List Alert) (now : String) (fid : ℕ)
    (c : AlertType) :
    (activeFor c (checkThresholdsAndCreateAlerts m status th ex now fid)).length ≤ 1 ∧
    (hasActive ex c = true →
      activeFor c (checkThresholdsAndCreateAlerts m status th ex now fid) = []) := by
  obtain ⟨d1, d2, d3, d4, heq, t1, t2, t3, t4, l1, l2, l3, l4, s1, s2, s3, s4, -⟩ :=
    cTCA_decomp m status th ex now fid
  rw [heq, activeFor_append, activeFor_append, activeFor_append]
  have k1 := fun a ha => (t1 a ha).1
  have k2 := fun a ha => (t2 a ha).1
  have k3 := fun a ha => (t3 a ha).1
  have k4 := fun a ha => (t4 a ha).1
  cases c
  case cpu =>
    rw [activeFor_of_types_ne k2 (by decide), activeFor_of_types_ne k3 (by decide),
      activeFor_of_types_ne k4 (by decide)]
    constructor
    · simpa using le_trans (activeFor_length_le _ d1) l1
    · intro h
      rw [s1 h]
      simp [activeFor]
  case gpu_temp =>
    rw [activeFor_of_types_ne k1 (by decide), activeFor_of_types_ne k3 (by decide),
      activeFor_of_types_ne k4 (by decide)]
    constructor
    · simpa using le_trans (activeFor_length_le _ d2) l2
    · intro h
      rw [s2 h]
      simp [activeFor]
  case memory =>
    rw [activeFor_of_types_ne k1 (by decide), activeFor_of_types_ne k2 (by decide),
      activeFor_of_types_ne k4 (by decide)]
    constructor
    · simpa using le_trans (activeFor_length_le _ d3) l3
    · intro h
      rw [s3 h]
      simp [activeFor]
  case disk =>
    rw [activeFor_of_types_ne k1 (by decide), activeFor_of_types_ne k2 (by decide),
      activeFor_of_types_ne k3 (by decide)]
    constructor
    · simpa using le_trans (activeFor_length_le _ d4) l4
    · intro h
      rw [s4 h]
      simp [activeFor]

/-- When every category other than `c` is out of breach and `c` already
has a non-dismissed alert, a tick creates nothing. -/
theorem cTCA_suppressed (m : MetricsData) (status : Option FullStatus)
    (th : AlertThresholds) (ex : List Alert) (now : String) (fid : ℕ)
    (c : AlertType)
    (hOnly : ∀ c', c' ≠ c → candidateFor c' m status th = none)
    (hAct : hasActive ex c = true) :
    checkThresholdsAndCreateAlerts m status th ex now fid = [] := by
  obtain ⟨d1, d2, d3, d4, heq, -, -, -, -, -, -, -, -, s1, s2, s3, s4,
      n1, n2, n3, n4⟩ := cTCA_decomp m status th ex now fid
  rw [heq]
  cases c
  case cpu =>
    rw [s1 hAct, n2 (hOnly .gpu_temp (by decide)), n3 (hOnly .memory (by decide)),
      n4 (hOnly .disk (by decide))]
    rfl
  case gpu_temp =>
    rw [s2 hAct, n1 (hOnly .cpu (by decide)), n3 (hOnly .memory (by decide)),
      n4 (hOnly .disk (by decide))]
    rfl
  case memory =>
    rw [s3 hAct, n1 (hOnly .cpu (by decide)), n2 (hOnly .gpu_temp (by decide)),
      n4 (hOnly .disk (by decide))]
    rfl
  case disk =>
    rw [s4 hAct, n1 (hOnly .cpu (by decide)), n2 (hOnly .gpu_temp (by decide)),
      n3 (hOnly .memory (by decide))]
    rfl

/-- When exactly category `c` is in breach and it has no non-dismissed
alert, the tick creates exactly the one fresh alert, with the next id. -/
theorem cTCA_only_creation (m : MetricsData) (status : Option FullStatus)
    (th : AlertThresholds) (ex : List Alert) (now : String) (fid : ℕ)
    (c : AlertType) (cd : Candidate)
    (hC : candidateFor c m status th = some cd)
    (hOnly : ∀ c', c' ≠ c → candidateFor c' m status th = none)
    (hAct : hasActive ex c = false) :
    checkThresholdsAndCreateAlerts m status th ex now fid =
      [mkAlert c cd now fid] := by
  cases c
  case cpu =>
    have h1 : cpuCandidate m th = some cd := hC
    have h2 : gpuTempCandidate m th = none := hOnly .gpu_temp (by decide)
    have h3 : memoryCandidate m th = none := hOnly .memory (by decide)
    have h4 : diskCandidate status th = none := hOnly .disk (by decide)
    simp [checkThresholdsAndCreateAlerts, tryCreate, h1, h2, h3, h4, hAct]
  case gpu_temp =>
    have h1 : cpuCandidate m th = none := hOnly .cpu (by decide)
    have h2 : gpuTempCandidate m th = some cd := hC
    have h3 : memoryCandidate m th = none := hOnly .memory (by decide)
    have h4 : diskCandidate status th = none := hOnly .disk (by decide)
    simp [checkThresholdsAndCreateAlerts, tryCreate, h1, h2, h3, h4, hAct]
  case memory =>
    have h1 : cpuCandidate m th = none := hOnly .cpu (by decide)
    have h2 : gpuTempCandidate m th = none := hOnly .gpu_temp (by decide)
    have h3 : memoryCandidate m th = some cd := hC
    have h4 : diskCandidate status th = none := hOnly .disk (by decide)
    simp [checkThresholdsAndCreateAlerts, tryCreate, h1, h2, h3, h4, hAct]
  case disk =>
    have h1 : cpuCandidate m th = none := hOnly .cpu (by decide)
    have h2 : gpuTempCandidate m th = none := hOnly .gpu_temp (by decide)
    have h3 : memoryCandidate m th = none := hOnly .memory (by decide)
    have h4 : diskCandidate status th = some cd := hC
    simp [checkThresholdsAndCreateAlerts, tryCreate, h1, h2, h3, h4, hAct]

/-! ### `takeLast` (the `slice(-n)` idiom) -/

theorem takeLast_of_le {l : List α} {n : ℕ} (h : l.length ≤ n) :
    takeLast l n = l := by
  unfold takeLast
  rw [Nat.sub_eq_zero_of_le h, List.drop_zero]

theorem takeLast_sublist (l : List α) (n : ℕ) : (takeLast l n).Sublist l :=
  List.drop_sublist _ _

theorem length_takeLast (l : List α) (n : ℕ) :
    (takeLast l n).length = min n l.length := by
  unfold takeLast
  rw [List.length_drop]
  omega

theorem takeLast_append_of_le {l1 l2 : List α} {n : ℕ} (h : n ≤ l2.length) :
    takeLast (l1 ++ l2) n = takeLast l2 n := by
  unfold takeLast
  rw [List.length_append,
    show l1.length + l2.length - n = l1.length + (l2.length - n) by omega,
    ← List.drop_drop, List.drop_left]

theorem takeLast_takeLast_append (l m : List α) (n : ℕ) :
    takeLast (takeLast l n ++ m) n = takeLast (l ++ m) n := by
  unfold takeLast
  rw [← List.drop_append_of_le_length (Nat.sub_le l.length n), List.drop_drop]
  congr 1
  simp only [List.length_drop, List.length_append]
  omega

/-! ### Structure of one `setMetrics` tick -/

theorem setMetrics_status (s : StoreState) (m : MetricsData) (now : String) :
    (setMetrics s m now).status = s.status := rfl

theorem setMetrics_thresholds (s : StoreState) (m : MetricsData) (now : String) :
    (setMetrics s m now).alertThresholds = s.alertThresholds := rfl

theorem setMetrics_enabled (s : StoreState) (m : MetricsData) (now : String) :
    (setMetrics s m now).alertsEnabled = s.alertsEnabled := rfl

theorem setMetrics_alerts_eq (s : StoreState) (m : MetricsData) (now : String) :
    (setMetrics s m now).alerts =
      (if 0 < (if s.alertsEnabled then
          checkThresholdsAndCreateAlerts m s.status s.alertThresholds s.alerts
            now s.nextId
        else []).length then
        takeLast (s.alerts ++ (if s.alertsEnabled then
          checkThresholdsAndCreateAlerts m s.status s.alertThresholds s.alerts
            now s.nextId
        else [])) MAX_ALERTS
      else s.alerts) := rfl

theorem setMetrics_nextId_eq (s : StoreState) (m : MetricsData) (now : String) :
    (setMetrics s m now).nextId =
      s.nextId + (if s.alertsEnabled then
        checkThresholdsAndCreateAlerts m s.status s.alertThresholds s.alerts
          now s.nextId
      else []).length := rfl

theorem ticks_cons (s : StoreState) (p : MetricsData × String)
    (rest : List (MetricsData × String)) :
    ticks s (p :: rest) = ticks (setMetrics s p.1 p.2) rest := rfl

/-- A tick whose only breaching category already has a non-dismissed
alert changes neither the alert list nor the id counter. -/
theorem tick_suppressed (s : StoreState) (c : AlertType) (m : MetricsData)
    (now : String)
    (hOnly : ∀ c', c' ≠ c → candidateFor c' m s.status s.alertThresholds = none)
    (hAct : hasActive s.alerts c = true) :
    (setMetrics s m now).alerts = s.alerts ∧
    (setMetrics s m now).nextId = s.nextId := by
  have hnew : (if s.alertsEnabled then
      checkThresholdsAndCreateAlerts m s.status s.alertThresholds s.alerts
        now s.nextId
    else []) = [] := by
    by_cases hEn : s.alertsEnabled = true
    · rw [if_pos hEn]
      exact cTCA_suppressed m s.status s.alertThresholds s.alerts now s.nextId
        c hOnly hAct
    · rw [if_neg hEn]
  constructor
  · rw [setMetrics_alerts_eq, hnew]
    simp
  · rw [setMetrics_nextId_eq, hnew]
    simp

/-- `tick_suppressed` extended along a whole sequence of ticks. -/
theorem ticks_suppressed (l : List (MetricsData × String)) (s : StoreState)
    (c : AlertType)
    (hOnly : ∀ p ∈ l, ∀ c', c' ≠ c →
      candidateFor c' p.1 s.status s.alertThresholds = none)
    (hAct : hasActive s.alerts c = true) :
    (ticks s l).alerts = s.alerts ∧ (ticks s l).nextId = s.nextId ∧
    (ticks s l).status = s.status ∧
    (ticks s l).alertThresholds = s.alertThresholds ∧
    (ticks s l).alertsEnabled = s.alertsEnabled := by
  induction l generalizing s
  case nil => exact ⟨rfl, rfl, rfl, rfl, rfl⟩
  case cons p rest ih =>
    obtain ⟨ha, hn⟩ := tick_suppressed s c p.1 p.2 (hOnly p (by simp)) hAct
    rw [ticks_cons]
    have hrest : ∀ q ∈ rest, ∀ c', c' ≠ c →
        candidateFor c' q.1 (setMetrics s p.1 p.2).status
          (setMetrics s p.1 p.2).alertThresholds = none := by
      intro q hq c' hc'
      rw [setMetrics_status, setMetrics_thresholds]
      exact hOnly q (by simp [hq]) c' hc'
    have hAct' : hasActive (setMetrics s p.1 p.2).alerts c = true := by
      rw [ha]; exact hAct
    obtain ⟨r1, r2, r3, r4, r5⟩ := ih (setMetrics s p.1 p.2) hrest hAct'
    refine ⟨?_, ?_, ?_, ?_, ?_⟩
    · rw [r1, ha]
    · rw [r2, hn]
    · rw [r3, setMetrics_status]
    · rw [r4, setMetrics_thresholds]
    · rw [r5, setMetrics_enabled]

/-- A tick in which exactly category `c` breaches, with no active alert
for it and room under the cap, appends exactly one fresh alert. -/
theorem tick_creation (s : StoreState) (c : AlertType) (cd : Candidate)
    (m : MetricsData) (now : String)
    (hEn : s.alertsEnabled = true)
    (hC : candidateFor c m s.status s.alertThresholds = some cd)
    (hOnly : ∀ c', c' ≠ c → candidateFor c' m s.status s.alertThresholds = none)
    (hAct : hasActive s.alerts c = false)
    (hLen : s.alerts.length + 1 ≤ MAX_ALERTS) :
    (setMetrics s m now).alerts = s.alerts ++ [mkAlert c cd now s.nextId] ∧
    (setMetrics s m now).nextId = s.nextId + 1 := by
  have hnew : (if s.alertsEnabled then
      checkThresholdsAndCreateAlerts m s.status s.alertThresholds s.alerts
        now s.nextId
    else []) = [mkAlert c cd now s.nextId] := by
    rw [if_pos hEn]
    exact cTCA_only_creation m s.status s.alertThresholds s.alerts now s.nextId
      c cd hC hOnly hAct
  constructor
  · rw [setMetrics_alerts_eq, hnew]
    rw [if_pos (by simp)]
    apply takeLast_of_le
    simpa using hLen
  · rw [setMetrics_nextId_eq, hnew]
    rfl

theorem dismissAlert_static (s : StoreState) (id : ℕ) :
    (dismissAlert s id).status = s.status ∧
    (dismissAlert s id).alertThresholds = s.alertThresholds ∧
    (dismissAlert s id).alertsEnabled = s.alertsEnabled ∧
    (dismissAlert s id).nextId = s.nextId :=
  ⟨rfl, rfl, rfl, rfl⟩

/-- Dismissing the id of the last alert, when no earlier alert shares
it, flips exactly that alert's flag. -/
theorem dismissAlert_last (s : StoreState) (base : List Alert) (a : Alert)
    (hs : s.alerts = base ++ [a])
    (hfresh : ∀ x ∈ base, x.id ≠ a.id) :
    (dismissAlert s a.id).alerts = base ++ [{ a with dismissed := true }] := by
  show s.alerts.map _ = _
  rw [hs, List.map_append]
  congr 1
  · calc base.map (fun x => if x.id = a.id then { x with dismissed := true } else x)
        = base.map id := by
          apply List.map_congr_left
          intro x hx
          rw [if_neg (hfresh x hx)]
          rfl
      _ = base := List.map_id base
  · simp

/-- C2: the ingest store keeps at most one non-dismissed alert per
category (every tick preserves the bound), and over any run of ticks in
which exactly category `c` stays in breach it creates exactly one
non-dismissed alert for `c` — later breaching ticks add nothing — while
after dismissing that alert the next breach creates a new alert with a
fresh id, the dismissed one staying in the list. -/
theorem c2_nondismissed_dedup :
    (∀ (s : StoreState) (m : MetricsData) (now : String) (c : AlertType),
      (activeFor c s.alerts).length ≤ 1 →
      (activeFor c (setMetrics s m now).alerts).length ≤ 1) ∧
    (∀ (s : StoreState) (c : AlertType) (l : List (MetricsData × String))
        (m' : MetricsData) (now' : String),
      s.alertsEnabled = true →
      hasActive s.alerts c = false →
      (∀ a ∈ s.alerts, a.id < s.nextId) →
      s.alerts.length + 2 ≤ MAX_ALERTS →
      l ≠ [] →
      (∀ p ∈ l, (candidateFor c p.1 s.status s.alertThresholds).isSome = true) →
      (∀ p ∈ l, ∀ c', c' ≠ c →
        candidateFor c' p.1 s.status s.alertThresholds = none) →
      (candidateFor c m' s.status s.alertThresholds).isSome = true →
      (∀ c', c' ≠ c → candidateFor c' m' s.status s.alertThresholds = none) →
      ∃ a : Alert,
        (ticks s l).alerts = s.alerts ++ [a] ∧
        a.type = c ∧ a.dismissed = false ∧ a.id = s.nextId ∧
        (activeFor c (ticks s l).alerts).length = 1 ∧
        ∃ b : Alert,
          (setMetrics (dismissAlert (ticks s l) a.id) m' now').alerts =
            s.alerts ++ [{ a with dismissed := true }] ++ [b] ∧
          b.type = c ∧ b.dismissed = false ∧ b.id ≠ a.id ∧
          ∀ x ∈ s.alerts, b.id ≠ x.id) := by
  constructor
  · intro s m now c h
    have hb : (activeFor c (if s.alertsEnabled then
          checkThresholdsAndCreateAlerts m s.status s.alertThresholds s.alerts
            now s.nextId
        else [])).length ≤ 1 ∧
        (hasActive s.alerts c = true →
          activeFor c (if s.alertsEnabled then
            checkThresholdsAndCreateAlerts m s.status s.alertThresholds s.alerts
              now s.nextId
          else []) = []) := by
      by_cases hEn : s.alertsEnabled = true
      · rw [if_pos hEn]
        exact cTCA_activeFor m s.status s.alertThresholds s.alerts now s.nextId c
      · rw [if_neg hEn]
        exact ⟨by simp [activeFor], fun _ => by simp [activeFor]⟩
    rw [setMetrics_alerts_eq]
    by_cases h0 : 0 < (if s.alertsEnabled then
        checkThresholdsAndCreateAlerts m s.status s.alertThresholds s.alerts
          now s.nextId
      else []).length
    · rw [if_pos h0]
      have hle : (activeFor c (takeLast (s.alerts ++ (if s.alertsEnabled then
          checkThresholdsAndCreateAlerts m s.status s.alertThresholds s.alerts
            now s.nextId
        else [])) MAX_ALERTS)).length ≤
          (activeFor c (s.alerts ++ (if s.alertsEnabled then
            checkThresholdsAndCreateAlerts m s.status s.alertThresholds s.alerts
              now s.nextId
          else []))).length :=
        ((takeLast_sublist _ _).filter _).length_le
      rw [activeFor_append, List.length_append] at hle
      by_cases hAct : hasActive s.alerts c = true
      · have := hb.2 hAct
        rw [this] at hle
        simpa using le_trans hle (by simpa using h)
      · have hAct' : hasActive s.alerts c = false := by
          simpa using hAct
        have h0' : (activeFor c s.alerts).length = 0 := by
          rw [(hasActive_false_iff _ _).mp hAct']
          rfl
        rw [h0'] at hle
        exact le_trans hle (by simpa using hb.1)
    · rw [if_neg h0]
      exact h
  · intro s c l m' now' hEn hAct hIds hLen hNe hBr hOnly hBr' hOnly'
    obtain ⟨p, rest, rfl⟩ := List.exists_cons_of_ne_nil hNe
    obtain ⟨cd, hcd⟩ := Option.isSome_iff_exists.mp (hBr p (by simp))
    obtain ⟨ha1, hn1⟩ := tick_creation s c cd p.1 p.2 hEn hcd
      (hOnly p (by simp)) hAct (by omega)
    have hOnlyRest : ∀ q ∈ rest, ∀ c', c' ≠ c →
        candidateFor c' q.1 (setMetrics s p.1 p.2).status
          (setMetrics s p.1 p.2).alertThresholds = none := by
      intro q hq c' hc'
      rw [setMetrics_status, setMetrics_thresholds]
      exact hOnly q (by simp [hq]) c' hc'
    have hAct1 : hasActive (setMetrics s p.1 p.2).alerts c = true := by
      rw [ha1]
      simp [hasActive, mkAlert]
    obtain ⟨r1, r2, r3, r4, r5⟩ :=
      ticks_suppressed rest (setMetrics s p.1 p.2) c hOnlyRest hAct1
    have hTicksAlerts : (ticks s (p :: rest)).alerts =
        s.alerts ++ [mkAlert c cd p.2 s.nextId] := by
      rw [ticks_cons, r1, ha1]
    have hTicksNext : (ticks s (p :: rest)).nextId = s.nextId + 1 := by
      rw [ticks_cons, r2, hn1]
    have hActivePart : activeFor c s.alerts = [] :=
      (hasActive_false_iff _ _).mp hAct
    refine ⟨mkAlert c cd p.2 s.nextId, hTicksAlerts, rfl, rfl, rfl, ?_, ?_⟩
    · rw [hTicksAlerts, activeFor_append, hActivePart]
      simp [activeFor, mkAlert]
    · have hfresh : ∀ x ∈ s.alerts, x.id ≠ (mkAlert c cd p.2 s.nextId).id := by
        intro x hx
        have := hIds x hx
        rw [mkAlert_id]
        omega
      have hd : (dismissAlert (ticks s (p :: rest))
          (mkAlert c cd p.2 s.nextId).id).alerts =
          s.alerts ++ [{ mkAlert c cd p.2 s.nextId with dismissed := true }] :=
        dismissAlert_last _ s.alerts _ hTicksAlerts hfresh
      have h2status : (dismissAlert (ticks s (p :: rest))
          (mkAlert c cd p.2 s.nextId).id).status = s.status := by
        rw [(dismissAlert_static _ _).1, ticks_cons, r3, setMetrics_status]
      have h2thresh : (dismissAlert (ticks s (p :: rest))
          (mkAlert c cd p.2 s.nextId).id).alertThresholds = s.alertThresholds := by
        rw [(dismissAlert_static _ _).2.1, ticks_cons, r4, setMetrics_thresholds]
      have h2en : (dismissAlert (ticks s (p :: rest))
          (mkAlert c cd p.2 s.nextId).id).alertsEnabled = true := by
        rw [(dismissAlert_static _ _).2.2.1, ticks_cons, r5, setMetrics_enabled, hEn]
      have h2next : (dismissAlert (ticks s (p :: rest))
          (mkAlert c cd p.2 s.nextId).id).nextId = s.nextId + 1 := by
        rw [(dismissAlert_static _ _).2.2.2, hTicksNext]
      have h2act : hasActive (dismissAlert (ticks s (p :: rest))
          (mkAlert c cd p.2 s.nextId).id).alerts c = false := by
        rw [hasActive_false_iff, hd, activeFor_append, hActivePart]
        simp [activeFor]
      obtain ⟨cd', hcd'⟩ := Option.isSome_iff_exists.mp hBr'
      have hC2 : candidateFor c m' (dismissAlert (ticks s (p :: rest))
          (mkAlert c cd p.2 s.nextId).id).status
          (dismissAlert (ticks s (p :: rest))
            (mkAlert c cd p.2 s.nextId).id).alertThresholds = some cd' := by
        rw [h2status, h2thresh]
        exact hcd'
      have hOnly2 : ∀ c', c' ≠ c → candidateFor c' m'
          (dismissAlert (ticks s (p :: rest))
            (mkAlert c cd p.2 s.nextId).id).status
          (dismissAlert (ticks s (p :: rest))
            (mkAlert c cd p.2 s.nextId).id).alertThresholds = none := by
        intro c' hc'
        rw [h2status, h2thresh]
        exact hOnly' c' hc'
      have hLen2 : (dismissAlert (ticks s (p :: rest))
          (mkAlert c cd p.2 s.nextId).id).alerts.length + 1 ≤ MAX_ALERTS := by
        rw [hd]
        simp only [List.length_append, List.length_singleton]
        omega
      obtain ⟨hb1, hb2⟩ := tick_creation _ c cd' m' now' h2en hC2 hOnly2 h2act hLen2
      refine ⟨mkAlert c cd' now' (dismissAlert (ticks s (p :: rest))
        (mkAlert c cd p.2 s.nextId).id).nextId, ?_, rfl, rfl, ?_, ?_⟩
      · rw [hb1, hd]
      · rw [mkAlert_id, h2next, mkAlert_id]
        omega
      · intro x hx
        rw [mkAlert_id, h2next]
        have := hIds x hx
        omega

/-- Witness for C2: from a fresh store, two ticks at CPU usage 95 and
96, then dismiss and a third breaching tick at 97 (the §8 scenario). -/
theorem c2_nondismissed_dedup_witness :
    freshStore.alertsEnabled = true ∧
    hasActive freshStore.alerts .cpu = false ∧
    freshStore.alerts.length + 2 ≤ MAX_ALERTS ∧
    breachRun ≠ [] ∧
    (∃ a : Alert,
      (ticks freshStore breachRun).alerts = freshStore.alerts ++ [a] ∧
      a.type = .cpu ∧ a.dismissed = false ∧ a.id = freshStore.nextId ∧
      (activeFor .cpu (ticks freshStore breachRun).alerts).length = 1 ∧
      ∃ b : Alert,
        (setMetrics (dismissAlert (ticks freshStore breachRun) a.id)
          (cpuSnapshot 97) "n3").alerts =
          freshStore.alerts ++ [{ a with dismissed := true }] ++ [b] ∧
        b.type = .cpu ∧ b.dismissed = false ∧ b.id ≠ a.id ∧
        ∀ x ∈ freshStore.alerts, b.id ≠ x.id) :=
  ⟨rfl, rfl, by decide, by decide,
    c2_nondismissed_dedup.2 freshStore .cpu breachRun (cpuSnapshot 97) "n3"
      rfl rfl (by decide) (by decide) (by decide) (by decide) (by decide)
      (by decide) (by decide)⟩

/-! ## C3: the in-memory history window -/

/-- Evolution of the history window along ticks, from any state whose
window is already within capacity. -/
theorem ticks_history (l : List (MetricsData × String)) (s : StoreState)
    (h : s.metricsHistory.length ≤ MAX_HISTORY) :
    (ticks s l).metricsHistory =
      takeLast (s.metricsHistory ++ l.map (fun p => toHistory p.1))
        MAX_HISTORY := by
  induction l generalizing s
  case nil =>
    rw [List.map_nil, List.append_nil, takeLast_of_le h]
    rfl
  case cons p rest ih =>
    rw [ticks_cons]
    have hist1 : (setMetrics s p.1 p.2).metricsHistory =
        takeLast (s.metricsHistory ++ [toHistory p.1]) MAX_HISTORY := rfl
    have hlen : (setMetrics s p.1 p.2).metricsHistory.length ≤ MAX_HISTORY := by
      rw [hist1, length_takeLast]
      omega
    rw [ih _ hlen, hist1, takeLast_takeLast_append]
    congr 1
    rw [List.append_assoc]
    rfl

/-- C3: starting from any store state, after `MAX_HISTORY + k` ticks
(`k > 0`) the in-memory window holds exactly `MAX_HISTORY` samples, and
they are the `MAX_HISTORY` most recently appended samples in append
order (strict FIFO eviction). -/
theorem c3_history_window (s : StoreState) (l : List (MetricsData × String))
    (k : ℕ) (hk : 0 < k) (hlen : l.length = MAX_HISTORY + k) :
    (ticks s l).metricsHistory =
      (l.map (fun p => toHistory p.1)).drop k ∧
    (ticks s l).metricsHistory.length = MAX_HISTORY := by
  rcases l with _ | ⟨p, rest⟩
  · simp at hlen
    omega
  have hist1 : (setMetrics s p.1 p.2).metricsHistory =
      takeLast (s.metricsHistory ++ [toHistory p.1]) MAX_HISTORY := rfl
  have hlen1 : (setMetrics s p.1 p.2).metricsHistory.length ≤ MAX_HISTORY := by
    rw [hist1, length_takeLast]
    omega
  have main : (ticks s (p :: rest)).metricsHistory =
      takeLast ((p :: rest).map (fun q => toHistory q.1)) MAX_HISTORY := by
    rw [ticks_cons, ticks_history rest _ hlen1, hist1, takeLast_takeLast_append,
      List.append_assoc]
    rw [show ([toHistory p.1] ++ rest.map (fun q => toHistory q.1)) =
      (p :: rest).map (fun q => toHistory q.1) from rfl]
    apply takeLast_append_of_le
    rw [List.length_map, List.length_cons]
    rw [List.length_cons] at hlen
    omega
  have hdrop : takeLast ((p :: rest).map (fun q => toHistory q.1)) MAX_HISTORY =
      ((p :: rest).map (fun q => toHistory q.1)).drop k := by
    unfold takeLast
    congr 1
    rw [List.length_map, hlen]
    omega
  refine ⟨main.trans hdrop, ?_⟩
  rw [main.trans hdrop, List.length_drop, List.length_map, hlen]
  omega

/-- Witness for C3: 31 ticks into a fresh store leave the last 30
samples. -/
theorem c3_history_window_witness :
    0 < 1 ∧
    (List.replicate (MAX_HISTORY + 1) (cpuSnapshot 10, "n")).length =
      MAX_HISTORY + 1 ∧
    (ticks freshStore
        (List.replicate (MAX_HISTORY + 1) (cpuSnapshot 10, "n"))).metricsHistory =
      ((List.replicate (MAX_HISTORY + 1) (cpuSnapshot 10, "n")).map
        (fun p => toHistory p.1)).drop 1 ∧
    (ticks freshStore
        (List.replicate (MAX_HISTORY + 1) (cpuSnapshot 10, "n"))).metricsHistory.length =
      MAX_HISTORY := by
  refine ⟨by decide, by simp, ?_⟩
  exact c3_history_window freshStore _ 1 (by decide) (by simp)

/-! ## C9: missing GPU is safe -/

/-- C9: a snapshot with `gpu: null` never yields a `gpu_temp` event —
neither from the server evaluator nor from the client's alert-creation
path — whatever the other fields, thresholds and state (evaluation is a
total function in this model, so no exception can arise). -/
theorem c9_gpu_null_safe :
    (∀ (m : MetricsData) (th : AlertThresholds), m.gpu = none →
      ∀ a ∈ checkAlerts m th, a.type ≠ .gpu_temp) ∧
    (∀ (m : MetricsData) (status : Option FullStatus) (th : AlertThresholds)
        (ex : List Alert) (now : String) (fid : ℕ), m.gpu = none →
      ∀ a ∈ checkThresholdsAndCreateAlerts m status th ex now fid,
        a.type ≠ .gpu_temp) := by
  constructor
  · intro m th hg a ha
    rw [checkAlerts_eq_segments, hg] at ha
    simp only [List.append_nil, List.mem_append] at ha
    rcases ha with ha | ha
    · rw [mem_toList_type (fun b hb => checkThreshold_type hb) ha]
      decide
    · rw [mem_toList_type (fun b hb => checkThreshold_type hb) ha]
      decide
  · intro m status th ex now fid hg a ha
    obtain ⟨d1, d2, d3, d4, heq, t1, t2, t3, t4, -, -, -, -, -, -, -, -,
        -, n2, -, -⟩ := cTCA_decomp m status th ex now fid
    have hd2 : d2 = [] := n2 (by simp [gpuTempCandidate, hg])
    rw [heq, hd2] at ha
    simp only [List.append_nil, List.mem_append] at ha
    rcases ha with (ha | ha) | ha
    · rw [(t1 a ha).1]; decide
    · rw [(t3 a ha).1]; decide
    · rw [(t4 a ha).1]; decide

/-- Witness for C9: the GPU-less snapshot with CPU at 95. -/
theorem c9_gpu_null_safe_witness :
    (cpuSnapshot 95).gpu = none ∧
    (∀ a ∈ checkAlerts (cpuSnapshot 95) DEFAULT_THRESHOLDS,
      a.type ≠ .gpu_temp) ∧
    (∀ a ∈ checkThresholdsAndCreateAlerts (cpuSnapshot 95) none
        DEFAULT_THRESHOLDS [] "n" 0, a.type ≠ .gpu_temp) :=
  ⟨rfl, c9_gpu_null_safe.1 (cpuSnapshot 95) DEFAULT_THRESHOLDS rfl,
    c9_gpu_null_safe.2 (cpuSnapshot 95) none DEFAULT_THRESHOLDS [] "n" 0 rfl⟩

/-! ## C10: the client ignores the server-computed alerts -/

/-- C10: the client message handler consumes only the `data` field — the
server-computed `alerts` array is discarded unread — and every alert in
the store after a tick is either pre-existing or produced by the
client's own re-evaluation of the snapshot against the client-local
thresholds and state. -/
theorem c10_client_reevaluates :
    (∀ (s : StoreState) (t : String) (d : MetricsData)
        (A B : List AlertCheck) (now : String),
      handleMessage s ⟨t, d, A⟩ now = handleMessage s ⟨t, d, B⟩ now) ∧
    (∀ (s : StoreState) (msg : WireMessage) (now : String) (a : Alert),
      a ∈ (handleMessage s msg now).alerts →
      a ∈ s.alerts ∨
      a ∈ checkThresholdsAndCreateAlerts msg.data s.status s.alertThresholds
        s.alerts now s.nextId) := by
  constructor
  · intro s t d A B now
    rfl
  · intro s msg now a ha
    unfold handleMessage at ha
    by_cases ht : (msg.type == "metrics") = true
    · rw [if_pos ht] at ha
      rw [setMetrics_alerts_eq] at ha
      by_cases h0 : 0 < (if s.alertsEnabled then
          checkThresholdsAndCreateAlerts msg.data s.status s.alertThresholds
            s.alerts now s.nextId
        else []).length
      · rw [if_pos h0] at ha
        have hmem := (takeLast_sublist _ _).subset ha
        rcases List.mem_append.mp hmem with h | h
        · exact Or.inl h
        · by_cases hEn : s.alertsEnabled = true
          · rw [if_pos hEn] at h
            exact Or.inr h
          · rw [if_neg hEn] at h
            simp at h
      · rw [if_neg h0] at ha
        exact Or.inl ha
    · rw [if_neg ht] at ha
      exact Or.inl ha

/-- Witness for C10: two wire messages sharing the snapshot but with
different server-computed alert arrays are ingested identically. -/
theorem c10_client_reevaluates_witness :
    handleMessage freshStore ⟨"metrics", cpuSnapshot 95, []⟩ "n" =
      handleMessage freshStore
        ⟨"metrics", cpuSnapshot 95,
          [⟨.disk, .warning, "spurious", 1, 2⟩]⟩ "n" :=
  c10_client_reevaluates.1 freshStore "metrics" (cpuSnapshot 95) []
    [⟨.disk, .warning, "spurious", 1, 2⟩] "n"

/-! ## C4: the broadcast tick -/

/-- With pairwise-distinct subscriber ids, the subscribers sharing an
open member's id and an open connection are exactly that member. -/
theorem filter_id_open_eq (clients : List WsClient) (c : WsClient)
    (hnodup : (clients.map (·.id)).Nodup) (hc : c ∈ clients)
    (hopen : c.readyState = .open) :
    clients.filter
      (fun x => x.id == c.id && x.readyState == ReadyState.open) = [c] := by
  induction clients
  case nil => cases hc
  case cons y ys ih =>
    rw [List.map_cons, List.nodup_cons] at hnodup
    rcases List.mem_cons.mp hc with rfl | hc'
    · have htail : ys.filter
          (fun x => x.id == c.id && x.readyState == ReadyState.open) = [] := by
        apply List.filter_eq_nil_iff.mpr
        intro x hx
        have hne : x.id ≠ c.id := by
          intro heq
          exact hnodup.1 (heq ▸ List.mem_map_of_mem (·.id) hx)
        simp [hne]
      rw [List.filter_cons, if_pos (by simp [hopen]), htail]
    · have hne : y.id ≠ c.id := by
        intro heq
        exact hnodup.1 (heq ▸ List.mem_map_of_mem (·.id) hc')
      rw [List.filter_cons, if_neg (by simp [hne])]
      exact ih hnodup.2 hc'

/-- C4: on a tick with at least one subscriber, every delivery of the
broadcast loop carries the single wire message
`{type: "metrics", data: snapshot, alerts: checkAlerts snapshot th}` —
the evaluator's output for this tick's snapshot against the threshold
store's current values — and each open subscriber receives exactly one
such message. -/
theorem c4_broadcast_message (clients : List WsClient) (m : MetricsData)
    (th : AlertThresholds)
    (hnodup : (clients.map (·.id)).Nodup) (hne : clients ≠ []) :
    (∀ p ∈ broadcastTick clients m th,
      p.2 = ⟨"metrics", m, checkAlerts m th⟩) ∧
    (∀ c ∈ clients, c.readyState = .open →
      (broadcastTick clients m th).filter (fun p => p.1 == c.id) =
        [(c.id, ⟨"metrics", m, checkAlerts m th⟩)]) := by
  have hlen : ¬clients.length = 0 := by
    intro h
    exact hne (List.length_eq_zero.mp h)
  constructor
  · intro p hp
    unfold broadcastTick at hp
    rw [if_neg hlen] at hp
    obtain ⟨c, -, rfl⟩ := List.mem_map.mp hp
    rfl
  · intro c hc hopen
    unfold broadcastTick
    rw [if_neg hlen]
    rw [List.filter_map]
    have hcomp : ((fun p : ℕ × WireMessage => p.1 == c.id) ∘
        (fun x : WsClient => (x.id, (⟨"metrics", m, checkAlerts m th⟩ : WireMessage)))) =
        fun x : WsClient => x.id == c.id := rfl
    rw [hcomp, List.filter_filter]
    rw [show (fun x : WsClient => x.id == c.id && (x.readyState == ReadyState.open)) =
      (fun x : WsClient => x.id == c.id && x.readyState == ReadyState.open) from rfl]
    rw [filter_id_open_eq clients c hnodup hc hopen]
    rfl

/-- Witness for C4: one open and one non-open subscriber. -/
theorem c4_broadcast_message_witness :
    (([⟨1, .open⟩, ⟨2, .notOpen⟩] : List WsClient).map (·.id)).Nodup ∧
    (∀ p ∈ broadcastTick [⟨1, .open⟩, ⟨2, .notOpen⟩] (gpuSnapshot 86)
        DEFAULT_THRESHOLDS,
      p.2 = ⟨"metrics", gpuSnapshot 86,
        checkAlerts (gpuSnapshot 86) DEFAULT_THRESHOLDS⟩) ∧
    (∀ c ∈ ([⟨1, .open⟩, ⟨2, .notOpen⟩] : List WsClient),
      c.readyState = .open →
      (broadcastTick [⟨1, .open⟩, ⟨2, .notOpen⟩] (gpuSnapshot 86)
        DEFAULT_THRESHOLDS).filter (fun p => p.1 == c.id) =
        [(c.id, ⟨"metrics", gpuSnapshot 86,
          checkAlerts (gpuSnapshot 86) DEFAULT_THRESHOLDS⟩)]) := by
  refine ⟨by decide, ?_, ?_⟩
  · exact (c4_broadcast_message [⟨1, .open⟩, ⟨2, .notOpen⟩] (gpuSnapshot 86)
      DEFAULT_THRESHOLDS (by decide) (by decide)).1
  · exact (c4_broadcast_message [⟨1, .open⟩, ⟨2, .notOpen⟩] (gpuSnapshot 86)
      DEFAULT_THRESHOLDS (by decide) (by decide)).2

/-! ## C5: partial threshold updates -/

/-- What `updateConfig` does to the stored thresholds, by cases on the
body. -/
theorem updateConfig_thresholds (cur : DashboardConfig) (sp : Option ServerPatch)
    (ap : Option AlertsPatch) :
    (updateConfig cur ⟨sp, ap⟩).alerts.thresholds =
      (match ap.bind (·.thresholds) with
        | none => cur.alerts.thresholds
        | some tp =>
          { cpu :=
              match tp.cpu with
              | none => cur.alerts.thresholds.cpu
              | some pp => mergePair cur.alerts.thresholds.cpu pp
            gpu_temp :=
              match tp.gpu_temp with
              | none => cur.alerts.thresholds.gpu_temp
              | some pp => mergePair cur.alerts.thresholds.gpu_temp pp
            memory :=
              match tp.memory with
              | none => cur.alerts.thresholds.memory
              | some pp => mergePair cur.alerts.thresholds.memory pp
            disk :=
              match tp.disk with
              | none => cur.alerts.thresholds.disk
              | some pp => mergePair cur.alerts.thresholds.disk pp }) := by
  rcases ap with _ | ⟨en, tpOpt⟩
  · cases sp <;> rfl
  · rcases tpOpt with _ | tp
    · cases sp <;> cases en <;> rfl
    · cases sp <;> cases en <;> rfl

/-- C5: for both threshold stores, a partial update touches only the
categories it mentions. The server alerts store (`setThresholds`)
replaces a mentioned category by the provided complete pair and keeps
every unmentioned category; the config store (`updateConfig`) merges a
mentioned category field-by-field, so providing only `warning` leaves
the critical field of that category unchanged. Both return the full resulting
set (they are total functions into the full threshold structure). -/
theorem c5_partial_update_merge :
    (∀ (cur : AlertThresholds) (p : ThresholdsPatch) (c : AlertType),
      p.forType c = none →
      (setThresholds cur p).forType c = cur.forType c) ∧
    (∀ (cur : AlertThresholds) (p : ThresholdsPatch) (c : AlertType)
        (pair : ThresholdPair),
      p.forType c = some pair → (setThresholds cur p).forType c = pair) ∧
    (∀ (cur : DashboardConfig) (sp : Option ServerPatch)
        (ap : Option AlertsPatch),
      ap.bind (·.thresholds) = none →
      (updateConfig cur ⟨sp, ap⟩).alerts.thresholds = cur.alerts.thresholds) ∧
    (∀ (cur : DashboardConfig) (sp : Option ServerPatch) (en : Option Bool)
        (tp : FieldThresholdsPatch) (c : AlertType),
      tp.forType c = none →
      (updateConfig cur ⟨sp, some ⟨en, some tp⟩⟩).alerts.thresholds.forType c =
        cur.alerts.thresholds.forType c) ∧
    (∀ (cur : DashboardConfig) (sp : Option ServerPatch) (en : Option Bool)
        (tp : FieldThresholdsPatch) (c : AlertType) (pp : PairPatch),
      tp.forType c = some pp →
      (updateConfig cur ⟨sp, some ⟨en, some tp⟩⟩).alerts.thresholds.forType c =
        mergePair (cur.alerts.thresholds.forType c) pp) ∧
    (∀ (cur : DashboardConfig) (sp : Option ServerPatch) (en : Option Bool)
        (tp : FieldThresholdsPatch) (c : AlertType) (w : ℚ),
      tp.forType c = some ⟨some w, none⟩ →
      ((updateConfig cur ⟨sp, some ⟨en, some tp⟩⟩).alerts.thresholds.forType
          c).warning = w ∧
      ((updateConfig cur ⟨sp, some ⟨en, some tp⟩⟩).alerts.thresholds.forType
          c).critical = (cur.alerts.thresholds.forType c).critical) := by
  have hmention : ∀ (cur : DashboardConfig) (sp : Option ServerPatch)
      (en : Option Bool) (tp : FieldThresholdsPatch) (c : AlertType)
      (pp : PairPatch),
      tp.forType c = some pp →
      (updateConfig cur ⟨sp, some ⟨en, some tp⟩⟩).alerts.thresholds.forType c =
        mergePair (cur.alerts.thresholds.forType c) pp := by
    intro cur sp en tp c pp h
    rw [updateConfig_thresholds]
    cases c <;>
      simp_all [FieldThresholdsPatch.forType, AlertThresholds.forType]
  refine ⟨?_, ?_, ?_, ?_, hmention, ?_⟩
  · intro cur p c h
    cases c <;>
      simp_all [setThresholds, AlertThresholds.forType, ThresholdsPatch.forType]
  · intro cur p c pair h
    cases c <;>
      simp_all [setThresholds, AlertThresholds.forType, ThresholdsPatch.forType]
  · intro cur sp ap h
    rw [updateConfig_thresholds, h]
  · intro cur sp en tp c h
    rw [updateConfig_thresholds]
    cases c <;>
      simp_all [FieldThresholdsPatch.forType, AlertThresholds.forType]
  · intro cur sp en tp c w h
    rw [hmention cur sp en tp c ⟨some w, none⟩ h]
    exact ⟨rfl, rfl⟩

/-- Witness for C5: updating only `{cpu: {warning: 70}}` on the default
config changes the cpu warning and nothing else. -/
theorem c5_partial_update_merge_witness :
    (⟨some ⟨some 70, none⟩, none, none, none⟩ :
      FieldThresholdsPatch).forType .cpu = some ⟨some 70, none⟩ ∧
    ((updateConfig defaultConfig
      ⟨none, some ⟨none, some ⟨some ⟨some 70, none⟩, none, none, none⟩⟩⟩).alerts.thresholds.forType
        .cpu).warning = 70 ∧
    ((updateConfig defaultConfig
      ⟨none, some ⟨none, some ⟨some ⟨some 70, none⟩, none, none, none⟩⟩⟩).alerts.thresholds.forType
        .cpu).critical =
      (defaultConfig.alerts.thresholds.forType .cpu).critical := by
  refine ⟨rfl, ?_⟩
  exact c5_partial_update_merge.2.2.2.2.2 defaultConfig none none
    ⟨some ⟨some 70, none⟩, none, none, none⟩ .cpu 70 rfl

/-! ## C7: count-based eviction -/

theorem enforceMaxRecords_bound (n : ℕ) (db : List MetricsRecord) :
    (enforceMaxRecords n db).length ≤ max n db.length ∧
    (n < db.length → (enforceMaxRecords n db).length = n) ∧
    (db.length ≤ n → enforceMaxRecords n db = db) := by
  unfold enforceMaxRecords
  refine ⟨?_, ?_, ?_⟩
  · split_ifs with hc
    · rw [List.length_drop]
      omega
    · omega
  · intro h
    rw [if_pos h, List.length_drop]
    omega
  · intro h
    rw [if_neg (by omega)]

theorem enforceMaxRecords_idem (n : ℕ) (db : List MetricsRecord) :
    enforceMaxRecords n (enforceMaxRecords n db) = enforceMaxRecords n db := by
  rcases Nat.lt_or_ge n db.length with h | h
  · have hlen : (enforceMaxRecords n db).length = n :=
      (enforceMaxRecords_bound n db).2.1 h
    exact (enforceMaxRecords_bound n _).2.2 (le_of_eq hlen)
  · rw [(enforceMaxRecords_bound n db).2.2 h,
      (enforceMaxRecords_bound n db).2.2 h]

/-- C7: at either cap (8640 in the store, 43200 in the hook), a second
eviction pass with no intervening appends is a no-op; after a pass the
record count is at most the cap; and when the cap was exceeded, exactly
the `count - cap` oldest records in timestamp-index order were deleted,
leaving exactly the cap. -/
theorem c7_eviction_idempotent_bounded (db : List MetricsRecord) :
    enforceMaxRecords MAX_RECORDS (enforceMaxRecords MAX_RECORDS db) =
      enforceMaxRecords MAX_RECORDS db ∧
    (enforceMaxRecords MAX_RECORDS db).length ≤ MAX_RECORDS ∧
    (MAX_RECORDS < db.length →
      enforceMaxRecords MAX_RECORDS db =
        db.drop (db.length - MAX_RECORDS) ∧
      (enforceMaxRecords MAX_RECORDS db).length = MAX_RECORDS) ∧
    enforceMaxRecords MAX_RECORDS_DB (enforceMaxRecords MAX_RECORDS_DB db) =
      enforceMaxRecords MAX_RECORDS_DB db ∧
    (enforceMaxRecords MAX_RECORDS_DB db).length ≤ MAX_RECORDS_DB ∧
    (MAX_RECORDS_DB < db.length →
      enforceMaxRecords MAX_RECORDS_DB db =
        db.drop (db.length - MAX_RECORDS_DB) ∧
      (enforceMaxRecords MAX_RECORDS_DB db).length = MAX_RECORDS_DB) := by
  have hcase : ∀ n : ℕ, (enforceMaxRecords n db).length ≤ n := by
    intro n
    rcases Nat.lt_or_ge n db.length with h | h
    · exact le_of_eq ((enforceMaxRecords_bound n db).2.1 h)
    · rw [(enforceMaxRecords_bound n db).2.2 h]
      exact h
  have hover : ∀ n : ℕ, n < db.length →
      enforceMaxRecords n db = db.drop (db.length - n) ∧
      (enforceMaxRecords n db).length = n := by
    intro n h
    refine ⟨?_, (enforceMaxRecords_bound n db).2.1 h⟩
    unfold enforceMaxRecords
    rw [if_pos h]
  exact ⟨enforceMaxRecords_idem _ db, hcase _, hover _,
    enforceMaxRecords_idem _ db, hcase _, hover _⟩

/-! ## C6: validation of threshold updates -/

theorem validateCat_eq_none_iff (c : AlertType) (pp : PairPatch) :
    validateCat c pp = none ↔ ¬pairViolation pp := by
  rcases pp with ⟨wo, co⟩
  unfold validateCat pairViolation
  rcases wo with _ | w <;> rcases co with _ | cr
  · simp
  · simp
  · simp
  · by_cases h1 : w < 0 ∨ 100 < w ∨ cr < 0 ∨ 100 < cr
    · simp [h1]
      all_goals
        intro k1 k2 k3 k4
        rcases h1 with h | h | h | h <;> linarith
    · by_cases h2 : w ≥ cr
      · simp [h1, h2]
      · simp [h1, h2]

theorem validateCat_eq_some (c : AlertType) (pp : PairPatch)
    (e : ThresholdRejection) (h : validateCat c pp = some e) :
    e.category = c ∧ pairViolation pp := by
  rcases pp with ⟨wo, co⟩
  unfold validateCat at h
  unfold pairViolation
  rcases wo with _ | w <;> rcases co with _ | cr
  · simp at h
    rw [← h]
    exact ⟨rfl, trivial⟩
  · simp at h
    rw [← h]
    exact ⟨rfl, trivial⟩
  · simp at h
    rw [← h]
    exact ⟨rfl, trivial⟩
  · by_cases h1 : w < 0 ∨ 100 < w ∨ cr < 0 ∨ 100 < cr
    · simp [h1] at h
      rw [← h]
      exact ⟨rfl, by tauto⟩
    · by_cases h2 : w ≥ cr
      · simp [h1, h2] at h
        rw [← h]
        refine ⟨rfl, ?_⟩
        right; right; right; right
        exact h2
      · simp [h1, h2] at h

theorem patchToFull_forType (u : FieldThresholdsPatch) (c : AlertType) :
    (patchToFull u).forType c = (u.forType c).bind (fun pp =>
      match pp.warning, pp.critical with
      | some w, some cr => some ⟨w, cr⟩
      | _, _ => none) := by
  cases c <;> rfl

theorem not_pairViolation_fields (pp : PairPatch) (h : ¬pairViolation pp) :
    ∃ w cr, pp.warning = some w ∧ pp.critical = some cr ∧
      0 ≤ w ∧ w ≤ 100 ∧ 0 ≤ cr ∧ cr ≤ 100 ∧ w < cr := by
  unfold pairViolation at h
  rcases hw : pp.warning with _ | w <;> rcases hc : pp.critical with _ | cr <;>
    rw [hw, hc] at h
  · exact absurd trivial h
  · exact absurd trivial h
  · exact absurd trivial h
  · have h' : ¬(w < 0 ∨ 100 < w ∨ cr < 0 ∨ 100 < cr ∨ cr ≤ w) := h
    push_neg at h'
    exact ⟨w, cr, rfl, rfl, h'.1, h'.2.1, h'.2.2.1, h'.2.2.2.1, h'.2.2.2.2⟩

theorem bind_validateCat_eq_none (o : Option PairPatch) (c : AlertType) :
    o.bind (validateCat c) = none ↔ ∀ pp, o = some pp → ¬pairViolation pp := by
  cases o
  · simp
  · simp [validateCat_eq_none_iff]

theorem validatePost_eq_none_iff (u : FieldThresholdsPatch) :
    validatePost u = none ↔
      ∀ c pp, u.forType c = some pp → ¬pairViolation pp := by
  rcases u with ⟨c1, c2, c3, c4⟩
  unfold validatePost
  rw [Option.orElse_eq_none, Option.orElse_eq_none, Option.orElse_eq_none,
    bind_validateCat_eq_none, bind_validateCat_eq_none,
    bind_validateCat_eq_none, bind_validateCat_eq_none]
  constructor
  · intro h c pp hc
    cases c
    · exact h.1 pp hc
    · exact h.2.1 pp hc
    · exact h.2.2.1 pp hc
    · exact h.2.2.2 pp hc
  · intro h
    exact ⟨fun pp hc => h .cpu pp hc, fun pp hc => h .gpu_temp pp hc,
      fun pp hc => h .memory pp hc, fun pp hc => h .disk pp hc⟩

theorem validatePost_eq_some (u : FieldThresholdsPatch)
    (e : ThresholdRejection) (h : validatePost u = some e) :
    ∃ pp, u.forType e.category = some pp ∧ pairViolation pp := by
  rcases u with ⟨c1, c2, c3, c4⟩
  unfold validatePost at h
  rw [Option.orElse_eq_some] at h
  rcases h with h | ⟨-, h⟩
  · rcases Option.bind_eq_some.mp h with ⟨pp, hpp, hv⟩
    obtain ⟨hcat, hviol⟩ := validateCat_eq_some _ _ _ hv
    exact ⟨pp, by rw [hcat]; exact hpp, hviol⟩
  · rw [Option.orElse_eq_some] at h
    rcases h with h | ⟨-, h⟩
    · rcases Option.bind_eq_some.mp h with ⟨pp, hpp, hv⟩
      obtain ⟨hcat, hviol⟩ := validateCat_eq_some _ _ _ hv
      exact ⟨pp, by rw [hcat]; exact hpp, hviol⟩
    · rw [Option.orElse_eq_some] at h
      rcases h with h | ⟨-, h⟩
      · rcases Option.bind_eq_some.mp h with ⟨pp, hpp, hv⟩
        obtain ⟨hcat, hviol⟩ := validateCat_eq_some _ _ _ hv
        exact ⟨pp, by rw [hcat]; exact hpp, hviol⟩
      · rcases Option.bind_eq_some.mp h with ⟨pp, hpp, hv⟩
        obtain ⟨hcat, hviol⟩ := validateCat_eq_some _ _ _ hv
        exact ⟨pp, by rw [hcat]; exact hpp, hviol⟩

theorem validatePutCat_order (c : AlertType) (pp : PairPatch) (w cr : ℚ)
    (hw : pp.warning = some w) (hc : pp.critical = some cr)
    (h : validatePutCat c pp = none) : w < cr := by
  unfold validatePutCat at h
  rw [hw, hc] at h
  simp only [Option.orElse_eq_none] at h
  have horder := h.2.2
  by_cases hge : w ≥ cr
  · rw [if_pos hge] at horder
    cases horder
  · exact lt_of_not_ge hge

/-- C6 counterexample: the settings body `{cpu: {warning: 95}}` against
the default config passes the PUT validation, yet the resulting stored
cpu pair is `{warning: 95, critical: 90}`, violating the invariant
`warning < critical` the claim requires of the resulting stored values
(so the update should have been rejected by the claim, but is not). -/
theorem c6_resulting_invariant_cex :
    validatePut warningOnlyBody = none ∧
    (putSettings defaultConfig warningOnlyBody).2.alerts.thresholds.cpu.warning = 95 ∧
    (putSettings defaultConfig warningOnlyBody).2.alerts.thresholds.cpu.critical = 90 ∧
    ¬((putSettings defaultConfig
        warningOnlyBody).2.alerts.thresholds.cpu.warning <
      (putSettings defaultConfig
        warningOnlyBody).2.alerts.thresholds.cpu.critical) := by
  refine ⟨by decide, by decide, by decide, by decide⟩

theorem setThresholds_forType_none (cur : AlertThresholds)
    (p : ThresholdsPatch) (c : AlertType) (h : p.forType c = none) :
    (setThresholds cur p).forType c = cur.forType c := by
  cases c <;>
    simp_all [setThresholds, AlertThresholds.forType, ThresholdsPatch.forType]

theorem setThresholds_forType_some (cur : AlertThresholds)
    (p : ThresholdsPatch) (c : AlertType) (pair : ThresholdPair)
    (h : p.forType c = some pair) :
    (setThresholds cur p).forType c = pair := by
  cases c <;>
    simp_all [setThresholds, AlertThresholds.forType, ThresholdsPatch.forType]

theorem bind_putCat_eq_none (o : Option PairPatch) (c : AlertType) :
    o.bind (validatePutCat c) = none ↔
      ∀ pp, o = some pp → validatePutCat c pp = none := by
  cases o <;> simp

/-- C6 (amended): a `POST /thresholds` update is rejected exactly when
some provided category has a missing or non-numeric field, a field
outside `[0,100]`, or `warning ≥ critical`; the rejection names an
offending category; on rejection the stored thresholds are unchanged;
and — because each provided category must carry both fields — an
accepted update preserves the stored invariant `warning < critical`.
On the `PUT /settings` route the order check applies only when both
fields are provided in the update, so acceptance guarantees
`warning < critical` only among the provided pairs (the
counterexample shows a single-field update can break the stored
invariant there). -/
theorem c6_validation_amended :
    (∀ u : FieldThresholdsPatch,
      validatePost u = none ↔
        ∀ c pp, u.forType c = some pp → ¬pairViolation pp) ∧
    (∀ (u : FieldThresholdsPatch) (e : ThresholdRejection),
      validatePost u = some e →
        ∃ pp, u.forType e.category = some pp ∧ pairViolation pp) ∧
    (∀ (cur : AlertThresholds) (u : FieldThresholdsPatch)
        (e : ThresholdRejection),
      validatePost u = some e → (postThresholds cur u).2 = cur) ∧
    (∀ (cur : AlertThresholds) (u : FieldThresholdsPatch),
      (∀ c, (cur.forType c).warning < (cur.forType c).critical) →
      validatePost u = none →
      ∀ c, ((postThresholds cur u).2.forType c).warning <
        ((postThresholds cur u).2.forType c).critical) ∧
    (∀ (p : ConfigPatch) (tp : FieldThresholdsPatch) (c : AlertType)
        (pp : PairPatch) (w cr : ℚ),
      p.alerts.bind (·.thresholds) = some tp →
      validatePut p = none →
      tp.forType c = some pp → pp.warning = some w → pp.critical = some cr →
      w < cr) := by
  refine ⟨validatePost_eq_none_iff, validatePost_eq_some, ?_, ?_, ?_⟩
  · intro cur u e h
    unfold postThresholds
    rw [h]
  · intro cur u hinv hv c
    have hstore : (postThresholds cur u).2 =
        setThresholds cur (patchToFull u) := by
      unfold postThresholds
      rw [hv]
    rw [hstore]
    rcases hc : u.forType c with _ | pp
    · have : (patchToFull u).forType c = none := by
        rw [patchToFull_forType, hc]
        rfl
      rw [setThresholds_forType_none cur _ c this]
      exact hinv c
    · have hnv : ¬pairViolation pp :=
        (validatePost_eq_none_iff u).mp hv c pp hc
      obtain ⟨w, cr, hw, hcr, -, -, -, -, hlt⟩ := not_pairViolation_fields pp hnv
      have : (patchToFull u).forType c = some ⟨w, cr⟩ := by
        rw [patchToFull_forType, hc]
        simp [hw, hcr]
      rw [setThresholds_forType_some cur _ c ⟨w, cr⟩ this]
      exact hlt
  · intro p tp c pp w cr hp hv hc hw hcr
    unfold validatePut at hv
    simp only [Option.orElse_eq_none] at hv
    have hthresh := hv.2
    rw [hp] at hthresh
    simp only [Option.orElse_eq_none] at hthresh
    have hcomp : tp.forType c |>.elim True (fun pp => validatePutCat c pp = none) := by
      cases c
      · rcases hcc : tp.cpu with _ | q
        · rw [FieldThresholdsPatch.forType, hcc]; trivial
        · rw [FieldThresholdsPatch.forType, hcc]
          exact (bind_putCat_eq_none tp.cpu .cpu).mp hthresh.1 q hcc
      · rcases hcc : tp.gpu_temp with _ | q
        · rw [FieldThresholdsPatch.forType, hcc]; trivial
        · rw [FieldThresholdsPatch.forType, hcc]
          exact (bind_putCat_eq_none tp.gpu_temp .gpu_temp).mp hthresh.2.1 q hcc
      · rcases hcc : tp.memory with _ | q
        · rw [FieldThresholdsPatch.forType, hcc]; trivial
        · rw [FieldThresholdsPatch.forType, hcc]
          exact (bind_putCat_eq_none tp.memory .memory).mp hthresh.2.2.1 q hcc
      · rcases hcc : tp.disk with _ | q
        · rw [FieldThresholdsPatch.forType, hcc]; trivial
        · rw [FieldThresholdsPatch.forType, hcc]
          exact (bind_putCat_eq_none tp.disk .disk).mp hthresh.2.2.2 q hcc
    rw [hc] at hcomp
    exact validatePutCat_order c pp w cr hw hcr hcomp

/-- Witness for C6 (amended): the body `{cpu: {warning: 120, critical:
130}}` is rejected with a cpu-identifying error and leaves the store
unchanged; the valid body `{cpu: {warning: 10, critical: 20}}` is
accepted and preserves the invariant. -/
theorem c6_validation_amended_witness :
    validatePost ⟨some ⟨some 120, some 130⟩, none, none, none⟩ =
      some ⟨.cpu, "Invalid threshold range",
        "cpu thresholds must be between 0 and 100"⟩ ∧
    (postThresholds DEFAULT_THRESHOLDS
      ⟨some ⟨some 120, some 130⟩, none, none, none⟩).2 = DEFAULT_THRESHOLDS ∧
    validatePost ⟨some ⟨some 10, some 20⟩, none, none, none⟩ = none ∧
    (∀ c, (DEFAULT_THRESHOLDS.forType c).warning <
      (DEFAULT_THRESHOLDS.forType c).critical) ∧
    (∀ c, (((postThresholds DEFAULT_THRESHOLDS
        ⟨some ⟨some 10, some 20⟩, none, none, none⟩).2).forType c).warning <
      (((postThresholds DEFAULT_THRESHOLDS
        ⟨some ⟨some 10, some 20⟩, none, none, none⟩).2).forType c).critical) := by
  refine ⟨by decide, ?_, by decide, by decide, ?_⟩
  · exact c6_validation_amended.2.2.1 DEFAULT_THRESHOLDS
      ⟨some ⟨some 120, some 130⟩, none, none, none⟩
      ⟨.cpu, "Invalid threshold range",
        "cpu thresholds must be between 0 and 100"⟩ (by decide)
  · exact c6_validation_amended.2.2.2.1 DEFAULT_THRESHOLDS
      ⟨some ⟨some 10, some 20⟩, none, none, none⟩ (by decide) (by decide)

/-! ## C8: export round-trip and CSV shape -/

theorem parseNullableNum_jsonOfOptQ (o : Option ℚ) :
    parseNullableNum (jsonOfOptQ o) = some o := by
  cases o <;> rfl

/-- One record survives the JSON round trip. -/
theorem parseRecord_recordToJson (r : MetricsRecord) :
    parseRecord (recordToJson r) = some r := by
  rcases r with ⟨id, ts, cpu, mem, gpu, gt, gm⟩
  rcases id with _ | n <;>
    simp [parseRecord, recordToJson, jfield, parseStr, parseNum, parseNatNum,
      parseNullableNum_jsonOfOptQ]

/-- The record list survives the JSON round trip. -/
theorem toList_append (s t : String) :
    (s ++ t).toList = s.toList ++ t.toList :=
  String.data_append s t

theorem parseRecords_exportJson (rs : List MetricsRecord) :
    parseRecords (exportMetricsJson rs) = some rs := by
  induction rs
  case nil => rfl
  case cons r rest ih =>
    have ih' : (rest.map recordToJson).mapM parseRecord = some rest := ih
    show (recordToJson r :: rest.map recordToJson).mapM parseRecord =
      some (r :: rest)
    rw [List.mapM_cons, parseRecord_recordToJson, ih']
    rfl

theorem joinSep_toList (sep : String) :
    ∀ fs : List String,
      (joinSep sep fs).toList = sep.toList.intercalate (fs.map String.toList)
  | [] => by simp [joinSep, List.intercalate]
  | [x] => by simp [joinSep, List.intercalate]
  | x :: y :: xs => by
    have ih := joinSep_toList sep (y :: xs)
    show (x ++ sep ++ joinSep sep (y :: xs)).toList = _
    rw [toList_append, toList_append, ih, List.map_cons, List.map_cons]
    simp [List.intercalate, List.intersperse]

theorem joinSep_mem (sep : String) (c : Char) :
    ∀ fs : List String, c ∈ (joinSep sep fs).toList →
      c ∈ sep.toList ∨ ∃ f ∈ fs, c ∈ f.toList
  | [] => by intro h; simp [joinSep] at h
  | [x] => by
    intro h
    exact Or.inr ⟨x, by simp, h⟩
  | x :: y :: xs => by
    intro h
    have h0 : c ∈ (x ++ sep ++ joinSep sep (y :: xs)).toList := h
    rw [toList_append, toList_append] at h0
    rcases List.mem_append.mp h0 with h' | h'
    · rcases List.mem_append.mp h' with h'' | h''
      · exact Or.inr ⟨x, by simp, h''⟩
      · exact Or.inl h''
    · rcases joinSep_mem sep c (y :: xs) h' with h'' | ⟨f, hf, hcf⟩
      · exact Or.inl h''
      · exact Or.inr ⟨f, by simp [List.mem_cons.mp hf], hcf⟩

theorem digitChar_mod_safe (m : ℕ) :
    Nat.digitChar (m % 10) ≠ ',' ∧ Nat.digitChar (m % 10) ≠ '\n' := by
  have h10 : ∀ k, k < 10 →
      Nat.digitChar k ≠ ',' ∧ Nat.digitChar k ≠ '\n' := by decide
  exact h10 _ (Nat.mod_lt _ (by norm_num))

theorem natDigitsRev_safe (n : ℕ) :
    ∀ c ∈ natDigitsRev n, c ≠ ',' ∧ c ≠ '\n' := by
  induction n using Nat.strong_induction_on with
  | _ n ih =>
    match n with
    | 0 => intro c hc; simp [natDigitsRev] at hc
    | k + 1 =>
      intro c hc
      rw [natDigitsRev] at hc
      rcases List.mem_cons.mp hc with rfl | hc'
      · exact digitChar_mod_safe (k + 1)
      · exact ih ((k + 1) / 10)
          (Nat.div_lt_self (Nat.succ_pos k) (by norm_num)) c hc'

theorem natDigits_safe (n : ℕ) : ∀ c ∈ natDigits n, c ≠ ',' ∧ c ≠ '\n' := by
  intro c hc
  unfold natDigits at hc
  split_ifs at hc
  · simp at hc
    subst hc
    exact ⟨by decide, by decide⟩
  · exact natDigitsRev_safe n c (List.mem_reverse.mp hc)

theorem toFixedChars_safe (q : ℚ) (d : ℕ) :
    ∀ c ∈ toFixedChars q d, c ≠ ',' ∧ c ≠ '\n' := by
  intro c hc
  unfold toFixedChars at hc
  split_ifs at hc with hd
  · rcases List.mem_append.mp hc with h | h
    · split_ifs at h
      · simp at h
        subst h
        exact ⟨by decide, by decide⟩
      · simp at h
    · exact natDigits_safe _ c h
  · rcases List.mem_append.mp hc with h | h
    · rcases List.mem_append.mp h with h' | h'
      · rcases List.mem_append.mp h' with h'' | h''
        · split_ifs at h''
          · simp at h''
            subst h''
            exact ⟨by decide, by decide⟩
          · simp at h''
        · exact natDigits_safe _ c h''
      · simp at h'
        subst h'
        exact ⟨by decide, by decide⟩
    · unfold padZeros at h
      rcases List.mem_append.mp h with h' | h'
      · rw [List.eq_of_mem_replicate h']
        exact ⟨by decide, by decide⟩
      · exact natDigits_safe _ c h'

theorem toFixed_toList_safe (q : ℚ) (d : ℕ) :
    ∀ c ∈ (toFixed q d).toList, c ≠ ',' ∧ c ≠ '\n' :=
  toFixedChars_safe q d

theorem csvFields_safe (r : MetricsRecord)
    (hts : ',' ∉ r.timestamp.toList ∧ '\n' ∉ r.timestamp.toList) :
    ∀ f ∈ csvFields r, ∀ c ∈ f.toList, c ≠ ',' ∧ c ≠ '\n' := by
  intro f hf c hc
  unfold csvFields at hf
  simp only [List.mem_cons, List.not_mem_nil, or_false] at hf
  rcases hf with rfl | rfl | rfl | rfl | rfl | rfl
  · exact ⟨fun h => hts.1 (h ▸ hc), fun h => hts.2 (h ▸ hc)⟩
  · exact toFixed_toList_safe _ _ c hc
  · exact toFixed_toList_safe _ _ c hc
  · rcases hg : r.gpu with _ | g <;> rw [hg] at hc
    · simp at hc
    · exact toFixed_toList_safe _ _ c hc
  · rcases hg : r.gpuTemp with _ | g <;> rw [hg] at hc
    · simp at hc
    · exact toFixed_toList_safe _ _ c hc
  · rcases hg : r.gpuMemory with _ | g <;> rw [hg] at hc
    · simp at hc
    · exact toFixed_toList_safe _ _ c hc

theorem csvRow_no_newline (r : MetricsRecord)
    (hts : ',' ∉ r.timestamp.toList ∧ '\n' ∉ r.timestamp.toList) :
    '\n' ∉ (joinSep "," (csvFields r)).toList := by
  intro h
  rcases joinSep_mem "," '\n' (csvFields r) h with h' | ⟨f, hf, hcf⟩
  · simp at h'
  · exact (csvFields_safe r hts f hf '\n' hcf).2 rfl

/-- Splitting one data row on commas recovers the six fields. -/
theorem csvRow_splitOn (r : MetricsRecord)
    (hts : ',' ∉ r.timestamp.toList ∧ '\n' ∉ r.timestamp.toList) :
    ((joinSep "," (csvFields r)).toList).splitOn ',' =
      (csvFields r).map String.toList := by
  rw [joinSep_toList]
  apply List.splitOn_intercalate
  · intro l hl
    obtain ⟨f, hf, rfl⟩ := List.mem_map.mp hl
    intro hc
    exact (csvFields_safe r hts f hf ',' hc).1 rfl
  · simp [csvFields]

theorem header_eq :
    joinSep "," CSV_HEADERS = "timestamp,cpu,memory,gpu,gpuTemp,gpuMemory" := by
  decide

/-- Splitting the CSV output on newlines recovers the rows. -/
theorem csv_lines (rs : List MetricsRecord)
    (hts : ∀ r ∈ rs, ',' ∉ r.timestamp.toList ∧ '\n' ∉ r.timestamp.toList) :
    ((exportMetricsCsv rs).toList).splitOn '\n' =
      (csvRows rs).map String.toList := by
  unfold exportMetricsCsv
  rw [joinSep_toList]
  apply List.splitOn_intercalate
  · intro l hl
    obtain ⟨row, hrow, rfl⟩ := List.mem_map.mp hl
    unfold csvRows at hrow
    rcases List.mem_cons.mp hrow with rfl | hrow'
    · intro hc
      exact (by decide : '\n' ∉ (joinSep "," CSV_HEADERS).toList) hc
    · obtain ⟨r, hr, rfl⟩ := List.mem_map.mp hrow'
      exact csvRow_no_newline r (hts r hr)
  · unfold csvRows
    simp

/-- C8: exporting any persisted records as JSON and parsing the output
yields the records back field-for-field; the CSV export has exactly
`N + 1` lines (the fixed header plus one row per record, recovered by
splitting on newlines), each data row splits on commas into exactly its
six fields, and absent optional numeric fields are rendered as the
empty string. (The export is a pure function of the record list: it
cannot mutate the buffer in this model, mirroring the read-only
transaction in the source.) -/
theorem c8_export_roundtrip_shape :
    (∀ rs : List MetricsRecord,
      parseRecords (exportMetricsJson rs) = some rs) ∧
    (∀ rs : List MetricsRecord,
      (∀ r ∈ rs, ',' ∉ r.timestamp.toList ∧ '\n' ∉ r.timestamp.toList) →
      (csvRows rs).length = rs.length + 1 ∧
      (csvRows rs).head? =
        some "timestamp,cpu,memory,gpu,gpuTemp,gpuMemory" ∧
      ((exportMetricsCsv rs).toList).splitOn '\n' =
        (csvRows rs).map String.toList ∧
      (∀ r ∈ rs,
        ((joinSep "," (csvFields r)).toList).splitOn ',' =
          (csvFields r).map String.toList ∧
        (csvFields r).length = 6 ∧
        (r.gpu = none → (csvFields r)[3]? = some "") ∧
        (r.gpuTemp = none → (csvFields r)[4]? = some "") ∧
        (r.gpuMemory = none → (csvFields r)[5]? = some ""))) := by
  constructor
  · exact parseRecords_exportJson
  · intro rs hts
    refine ⟨?_, ?_, csv_lines rs hts, ?_⟩
    · unfold csvRows
      simp
    · unfold csvRows
      rw [header_eq]
      rfl
    · intro r hr
      refine ⟨csvRow_splitOn r (hts r hr), rfl, ?_, ?_, ?_⟩
      · intro hg
        simp [csvFields, hg]
      · intro hg
        simp [csvFields, hg]
      · intro hg
        simp [csvFields, hg]

/-- Witness for C8: a two-record buffer, one record with all optional
fields present and one with none. -/
theorem c8_export_roundtrip_shape_witness :
    parseRecords (exportMetricsJson [sampleRecordFull, sampleRecordSparse]) =
      some [sampleRecordFull, sampleRecordSparse] ∧
    (∀ r ∈ [sampleRecordFull, sampleRecordSparse],
      ',' ∉ r.timestamp.toList ∧ '\n' ∉ r.timestamp.toList) ∧
    (csvRows [sampleRecordFull, sampleRecordSparse]).length = 2 + 1 ∧
    ((exportMetricsCsv [sampleRecordFull, sampleRecordSparse]).toList).splitOn
        '\n' =
      (csvRows [sampleRecordFull, sampleRecordSparse]).map String.toList :=
  ⟨c8_export_roundtrip_shape.1 [sampleRecordFull, sampleRecordSparse],
    by decide,
    (c8_export_roundtrip_shape.2 [sampleRecordFull, sampleRecordSparse]
      (by decide)).1,
    (c8_export_roundtrip_shape.2 [sampleRecordFull, sampleRecordSparse]
      (by decide)).2.2.1⟩

end GX10
